import Mathlib

/-!
# Embarcatech_Final.c: noise detector with LED matrix and buzzer

A shallow embedding of `src/Embarcatech_Final.c` (Raspberry Pi Pico firmware).
Machine integers are natural numbers reduced modulo their width at every store;
the hardware collaborators (ADC, microsecond timer, GPIO, PWM, PIO FIFO) are
modelled by explicit inputs and by output fields of the program state.
-/

namespace Embarcatech

/-! ## Constants (`#define`s of the source) -/

def PINO_BUZZER : Nat := 21
def PINO_LED : Nat := 13
def PINO_LED_RGB : Nat := 11
def LIMIAR_RUIDO : Int := 50
def TAMANHO_AMOSTRA : Nat := 10
def AMOSTRAS_CALIBRACAO : Nat := 50
def NUMERO_LEDS : Nat := 25
def TEMPO_DEBOUNCE : Nat := 500
def DURACAO_DETECCAO : Nat := 1500

/-! ## Binary64 constants and the one floating-point operation the program uses -/

/-- A positive binary64 constant, held exactly as `mant / 2 ^ exp2` with
`2 ^ 52 ≤ mant < 2 ^ 53`. -/
structure Double where
  mant : Nat
  exp2 : Nat
deriving DecidableEq

/-- The literal `1.3` as the nearest binary64 (`0x3FF4CCCCCCCCCCCD`). -/
def GANHO_AMPLITUDE : Double := ⟨5854679515581645, 52⟩

/-- The literal `0.05` as the nearest binary64 (`0x3FA999999999999A`). -/
def FATOR_REDUCAO_POTENCIA : Double := ⟨7205759403792794, 57⟩

/-- The value `p / 2 ^ e` rounded to an integer, to nearest and ties to even. -/
def roundNearestEven (p e : Nat) : Nat :=
  let q := p / 2 ^ e
  let r := p % 2 ^ e
  if 2 ^ e < 2 * r ∨ (2 * r = 2 ^ e ∧ q % 2 = 1) then q + 1 else q

/-- Halvings needed to bring `p` below `2 ^ 53`, at most `fuel` of them. -/
def excessBitsAux : Nat → Nat → Nat
  | 0, _ => 0
  | fuel + 1, p => if p < 2 ^ 53 then 0 else excessBitsAux fuel (p / 2) + 1

/-- Number of low bits of `p` that do not fit in a 53-bit significand (`p`
halvings always suffice, so `p` itself serves as fuel). -/
def excessBits (p : Nat) : Nat := excessBitsAux p p

/-- The C expression `(integer type)(n * d)` for an `int` value `n ≥ 0` and a
binary64 constant `d`: `n` converts to binary64 exactly, the product is rounded
to a 53-bit significand (round to nearest, ties to even), and the conversion
to an integer type discards the fraction. -/
def mulTrunc (n : Nat) (d : Double) : Nat :=
  let p := n * d.mant
  let e := excessBits p
  (roundNearestEven p e * 2 ^ e) / 2 ^ d.exp2

/-- Conversion of an integer value to `int16_t` (two's complement wrap-around). -/
def toInt16 (x : Int) : Int :=
  let m := x % 65536
  if m < 32768 then m else m - 65536

/-- Difference of two readings of the 32-bit microsecond counter, in `uint32_t`. -/
def sub32 (a b : Nat) : Nat := (a % 2 ^ 32 + 2 ^ 32 - b % 2 ^ 32) % 2 ^ 32

/-! ## Program state -/

/-- The `struct pixel_t` of the source: three 8-bit channels in the order G, R, B. -/
structure pixel_t where
  G : Nat
  R : Nat
  B : Nat
deriving DecidableEq

/-- Globals of the program, locals of `main` that live across loop iterations,
and the observable outputs. -/
structure State where
  /-- Global `uint16_t OFFSET_MIC`. -/
  OFFSET_MIC : Nat
  /-- Global `npLED_t leds[NUMERO_LEDS]`. -/
  leds : List pixel_t
  /-- Local `uint16_t valores_adc[TAMANHO_AMOSTRA]` of `main`. -/
  valores_adc : List Nat
  /-- Local `uint8_t indice` of `main`. -/
  indice : Nat
  /-- Local `uint32_t tempo_inicio_deteccao` of `main`. -/
  tempo_inicio_deteccao : Nat
  /-- Local `bool detectando` of `main`: `true` is Active, `false` is Idle. -/
  detectando : Bool
  /-- Local `uint32_t ultimo_tempo_deteccao` of `main`. -/
  ultimo_tempo_deteccao : Nat
  /-- Output level last written to `PINO_LED` (indicator LED). -/
  saida_led : Bool
  /-- Output level last written to `PINO_LED_RGB` (RGB status LED). -/
  saida_led_rgb : Bool
  /-- Level last written by `pwm_set_gpio_level` to the buzzer pin. -/
  nivel_buzzer : Nat
  /-- Every word handed to `pio_sm_put_blocking`, oldest first. -/
  fifo : List Nat
  /-- Set when `definirLED` is called with an index outside `leds`; the C store
  is then unchecked and the behaviour of the program is undefined. -/
  fora_do_array : Bool
deriving DecidableEq

/-! ## Output primitives -/

/-- The SDK call `gpio_put(pino, valor)` on the two pins the program drives. -/
def gpio_put (pino : Nat) (valor : Bool) (s : State) : State :=
  if pino = PINO_LED then { s with saida_led := valor }
  else if pino = PINO_LED_RGB then { s with saida_led_rgb := valor }
  else s

/-- The SDK call `pwm_set_gpio_level(pino, level)` (`level` is `uint16_t`). -/
def pwm_set_gpio_level (pino : Nat) (level : Nat) (s : State) : State :=
  if pino = PINO_BUZZER then { s with nivel_buzzer := level % 65536 } else s

/-- The SDK call `pio_sm_put_blocking(np_pio, sm, data)` (`data` is `uint32_t`). -/
def pio_sm_put_blocking (data : Nat) (s : State) : State :=
  { s with fifo := s.fifo ++ [data % 2 ^ 32] }

/-- The function `ligar_buzzer(pino)`. -/
def ligar_buzzer (pino : Nat) (s : State) : State :=
  pwm_set_gpio_level pino 2048 s

/-- The function `desligar_buzzer(pino)`. -/
def desligar_buzzer (pino : Nat) (s : State) : State :=
  pwm_set_gpio_level pino 0 s

/-! ## LED matrix -/

/-- Read of `leds[i]`. -/
def ledAt (s : State) (i : Nat) : pixel_t := s.leds.getD i ⟨0, 0, 0⟩

/-- The function `definirLED(indice, r, g, b)`: the three stores into
`leds[indice]` (`r`, `g`, `b` are `uint8_t`, `indice` is the value of the `uint`
argument). The source performs no bounds check and returns nothing. For an
index outside the array the stores are unchecked and their effect is undefined
in C; the model then only records the event in `fora_do_array`, and the rest of
what it returns there is a placeholder on which no statement relies. -/
def definirLED (indice r g b : Nat) (s : State) : State :=
  if indice < NUMERO_LEDS then
    { s with leds := s.leds.set indice ⟨g % 256, r % 256, b % 256⟩ }
  else
    { s with fora_do_array := true }

/-- The function `limpar_np()`. -/
def limpar_np (s : State) : State :=
  (List.range NUMERO_LEDS).foldl (fun st i => definirLED i 0 0 0 st) s

/-- The function `escrever_np()`. -/
def escrever_np (s : State) : State :=
  (List.range NUMERO_LEDS).foldl
    (fun st i =>
      pio_sm_put_blocking (ledAt st i).B
        (pio_sm_put_blocking (ledAt st i).R
          (pio_sm_put_blocking (ledAt st i).G st)))
    s

/-- The LED part of `inicializar_np(pino)`: every pixel of `leds` is zeroed. -/
def inicializar_np (s : State) : State :=
  { s with leds := List.replicate NUMERO_LEDS ⟨0, 0, 0⟩ }

/-! ## Calibration -/

/-- The function `calibrar_microfone()`; `adc i` is the value returned by the
`i`-th call of `adc_read()`. -/
def calibrar_microfone (adc : Nat → Nat) (s : State) : State :=
  let soma_offset :=
    (List.range AMOSTRAS_CALIBRACAO).foldl
      (fun soma i => (soma + adc i % 65536) % 2 ^ 32) 0
  { s with OFFSET_MIC := (soma_offset / AMOSTRAS_CALIBRACAO) % 65536 }

/-! ## The loop of `main` -/

/-- Successive values returned by `time_us_32()` during one iteration of the
loop, one field per call site (source lines 148, 151, 193 and 200). -/
structure Relogio where
  debounce : Nat
  inicio : Nat
  duracao : Nat
  fim : Nat
deriving DecidableEq

/-- An iteration during which every call of `time_us_32()` returns `agora`. -/
def Relogio.instante (agora : Nat) : Relogio := ⟨agora, agora, agora, agora⟩

/-- Source lines 136-137: store the sample at the cursor, advance the cursor. -/
def amostrar (raw : Nat) (s : State) : State :=
  { s with
    valores_adc := s.valores_adc.set s.indice (raw % 65536)
    indice := ((s.indice + 1) % TAMANHO_AMOSTRA) % 256 }

/-- Source lines 139-142: the `uint32_t soma` of the whole buffer. -/
def soma (s : State) : Nat :=
  (List.range TAMANHO_AMOSTRA).foldl
    (fun acc i => (acc + s.valores_adc.getD i 0) % 2 ^ 32) 0

/-- Source line 143: `uint16_t valor_adc_medio = soma / TAMANHO_AMOSTRA`. -/
def valor_adc_medio (s : State) : Nat := (soma s / TAMANHO_AMOSTRA) % 65536

/-- Source line 144 on given operands:
`int16_t amplitude = abs((int16_t)medio - offset) * GANHO_AMPLITUDE`. -/
def amplitudeDe (medio offset : Nat) : Int :=
  toInt16 (mulTrunc (Int.natAbs (toInt16 medio - (offset : Int))) GANHO_AMPLITUDE)

/-- Source line 144: the amplitude computed from the buffer and `OFFSET_MIC`. -/
def amplitude (s : State) : Int := amplitudeDe (valor_adc_medio s) s.OFFSET_MIC

/-- The argument `(uint8_t)(255 * FATOR_REDUCAO_POTENCIA)` of the pattern writes. -/
def brilho : Nat := mulTrunc 255 FATOR_REDUCAO_POTENCIA % 256

/-- Source lines 154-165: `limpar_np()` and the ten red writes, in source order. -/
def padrao_alarme (s : State) : State :=
  [24, 20, 18, 16, 12, 8, 6, 4, 0, 12].foldl
    (fun st i => definirLED i brilho 0 0 st) (limpar_np s)

/-- Source lines 169-188: `limpar_np()`, the loop writing green to every pixel,
and the fifteen writes that switch pixels off, in source order. -/
def padrao_repouso (s : State) : State :=
  [0, 1, 3, 4, 5, 7, 9, 11, 12, 13, 16, 18, 20, 22, 24].foldl
    (fun st i => definirLED i 0 0 0 st)
    ((List.range NUMERO_LEDS).foldl
      (fun st i => definirLED i 0 brilho 0 st) (limpar_np s))

/-- Source lines 150-167: the body of the branch taken on a detection. -/
def ativar (r : Relogio) (s : State) : State :=
  { s with detectando := true, tempo_inicio_deteccao := r.inicio % 2 ^ 32 }
    |> gpio_put PINO_LED true
    |> gpio_put PINO_LED_RGB false
    |> padrao_alarme
    |> escrever_np
    |> ligar_buzzer PINO_BUZZER

/-- Source lines 148-191: the debounce test and the two branches under it,
for the amplitude `amp` computed on line 144. -/
def passo_deteccao (amp : Int) (r : Relogio) (s : State) : State :=
  if sub32 r.debounce s.ultimo_tempo_deteccao ≥ TEMPO_DEBOUNCE * 1000 then
    if amp > LIMIAR_RUIDO ∧ s.detectando = false then ativar r s
    else if s.detectando = false then escrever_np (padrao_repouso s)
    else s
  else s

/-- Source lines 194-200: the body of the branch taken when the hold expires. -/
def desativar (r : Relogio) (s : State) : State :=
  { ({ s with detectando := false }
      |> gpio_put PINO_LED false
      |> gpio_put PINO_LED_RGB true
      |> limpar_np
      |> escrever_np
      |> desligar_buzzer PINO_BUZZER) with
    ultimo_tempo_deteccao := r.fim % 2 ^ 32 }

/-- Source lines 193-201: the hold-duration test. -/
def passo_duracao (r : Relogio) (s : State) : State :=
  if s.detectando = true ∧
      sub32 r.duracao s.tempo_inicio_deteccao ≥ DURACAO_DETECCAO * 1000 then
    desativar r s
  else s

/-- Source lines 136-191 of one iteration: sampling, smoothing, amplitude and
the detection step. -/
def main_loop_deteccao (raw : Nat) (r : Relogio) (s : State) : State :=
  let s1 := amostrar raw s
  passo_deteccao (amplitude s1) r s1

/-- One iteration of the `while (true)` loop of `main` (source lines 136-201);
`raw` is the value returned by `adc_read()`. -/
def main_loop (raw : Nat) (r : Relogio) (s : State) : State :=
  passo_duracao r (main_loop_deteccao raw r s)

/-- Successive iterations of the loop, one per input. -/
def main_run (entradas : List (Nat × Relogio)) (s : State) : State :=
  entradas.foldl (fun st e => main_loop e.1 e.2 st) s

/-- Memory and outputs when `main` is entered: initialised globals, the locals
of `main` with their initialisers, output pins low after `gpio_init`, PWM level
0, nothing sent to the FIFO yet. -/
def estado_reset : State :=
  { OFFSET_MIC := 2048
    leds := List.replicate NUMERO_LEDS ⟨0, 0, 0⟩
    valores_adc := List.replicate TAMANHO_AMOSTRA 0
    indice := 0
    tempo_inicio_deteccao := 0
    detectando := false
    ultimo_tempo_deteccao := 0
    saida_led := false
    saida_led_rgb := false
    nivel_buzzer := 0
    fifo := []
    fora_do_array := false }

/-- Source lines 108-133: everything `main` does before entering the loop. -/
def main_init (adc : Nat → Nat) : State :=
  estado_reset
    |> gpio_put PINO_LED_RGB true
    |> inicializar_np
    |> limpar_np
    |> escrever_np
    |> calibrar_microfone adc

/-- Microseconds that `main` has slept for certain when it enters its loop:
`sleep_ms(1000)` on source line 109 and `sleep_ms(10)` on line 100 in each of
the `AMOSTRAS_CALIBRACAO` rounds of `calibrar_microfone`. -/
def ESPERA_INICIAL : Nat := 1000 * 1000 + AMOSTRAS_CALIBRACAO * (10 * 1000)

/-- Sample ring after pushing the samples `xs` in order, from the buffer and
cursor that `main` declares. -/
def amostrarTodos (xs : List Nat) : State :=
  xs.foldl (fun st x => amostrar x st) estado_reset

/-! ## Auxiliary definitions used in the statements -/

/-- The pixel that `definirLED _ r g b` stores. -/
def pixelDe (r g b : Nat) : pixel_t := ⟨g % 256, r % 256, b % 256⟩

/-- The words that one pass over the indices `is` puts in the FIFO when the
buffer holds `leds`: green, red, blue of each pixel. -/
def serializar (leds : List pixel_t) (is : List Nat) : List Nat :=
  is.flatMap (fun i =>
    [(leds.getD i ⟨0, 0, 0⟩).G % 2 ^ 32, (leds.getD i ⟨0, 0, 0⟩).R % 2 ^ 32,
      (leds.getD i ⟨0, 0, 0⟩).B % 2 ^ 32])

/-- The buffer of the alarm presentation: red at level 12 on the two diagonals
of the 5 x 5 matrix, every other pixel off. -/
def ledsAlarme : List pixel_t :=
  (List.range 25).map (fun i =>
    if i ∈ [0, 4, 6, 8, 12, 16, 18, 20, 24] then ⟨0, 12, 0⟩ else ⟨0, 0, 0⟩)

/-- The fields that only sampling and calibration write: the sample ring, its
cursor and the calibration offset. -/
def anel (s : State) : List Nat × Nat × Nat := (s.valores_adc, s.indice, s.OFFSET_MIC)

/-- The last ten samples of `xs`, oldest first, with zeros for the samples
missing before ten have been pushed. -/
def janela (xs : List Nat) : List Nat :=
  (List.replicate TAMANHO_AMOSTRA 0 ++ xs).drop xs.length

/-- A well-formed `leds` array: `NUMERO_LEDS` pixels with 8-bit channels. -/
def ledsValidos (leds : List pixel_t) : Prop :=
  leds.length = NUMERO_LEDS ∧ ∀ p ∈ leds, p.G < 256 ∧ p.R < 256 ∧ p.B < 256

instance (leds : List pixel_t) : Decidable (ledsValidos leds) := by
  unfold ledsValidos
  infer_instance

/-- The debounce reading that the first iteration of the loop can get: the
counter counts the microseconds since power-up, `main` has slept
`ESPERA_INICIAL` of them, and the 32-bit counter has not wrapped around yet. -/
def primeiraLeitura (r : Relogio) : Prop :=
  ESPERA_INICIAL ≤ r.debounce ∧ r.debounce < 2 ^ 32

instance (r : Relogio) : Decidable (primeiraLeitura r) := by
  unfold primeiraLeitura
  infer_instance

/-- The buffer of the idle presentation: green at level 12 on the ten pixels
that the fifteen final writes leave alone, every other pixel off. -/
def ledsRepouso : List pixel_t :=
  (List.range 25).map (fun i =>
    if i ∈ [2, 6, 8, 10, 14, 15, 17, 19, 21, 23] then ⟨12, 0, 0⟩ else ⟨0, 0, 0⟩)

/-- The alarm render of source lines 154-165 without its last write, the second
one to index 12. -/
def padrao_alarme_sem_duplicata (s : State) : State :=
  [24, 20, 18, 16, 12, 8, 6, 4, 0].foldl
    (fun st i => definirLED i brilho 0 0 st) (limpar_np s)

/-- Coherence of the outputs with the detection state: indicator LED on exactly
in state Active, RGB status LED on exactly in state Idle, buzzer level 2048 in
state Active and 0 in state Idle. -/
def saidasCoerentes (s : State) : Prop :=
  s.saida_led = s.detectando ∧ s.saida_led_rgb = (!s.detectando) ∧
    s.nivel_buzzer = if s.detectando = true then 2048 else 0

/-- The four readings of one iteration are in order and fit the 32-bit counter
without wrap-around. -/
def relogioOrdenado (r : Relogio) : Prop :=
  r.debounce ≤ r.inicio ∧ r.inicio ≤ r.duracao ∧ r.duracao ≤ r.fim ∧ r.fim < 2 ^ 32

instance (r : Relogio) : Decidable (relogioOrdenado r) := by
  unfold relogioOrdenado
  infer_instance

/-- The readings of a run never decrease, from `t` on, and never wrap around. -/
def temposOrdenados : Nat → List (Nat × Relogio) → Prop
  | _, [] => True
  | t, e :: es => t ≤ e.2.debounce ∧ relogioOrdenado e.2 ∧ temposOrdenados e.2.fim es

/-- The activation times recorded along a run, oldest first: an iteration
entered Idle whose detection step ends Active contributes the
`tempo_inicio_deteccao` that this step stored. -/
def ativacoes : List (Nat × Relogio) → State → List Nat
  | [], _ => []
  | e :: es, s =>
    if s.detectando = false ∧ (main_loop_deteccao e.1 e.2 s).detectando = true then
      (main_loop_deteccao e.1 e.2 s).tempo_inicio_deteccao :: ativacoes es (main_loop e.1 e.2 s)
    else ativacoes es (main_loop e.1 e.2 s)

/-- Timing invariant after an activation at time `a`, at current time `t`: in
state Active the activation time is `a`; in state Idle the last deactivation
came at least 1500000 us after `a`. -/
def aposAtivacao (s : State) (a t : Nat) : Prop :=
  (s.detectando = true → s.tempo_inicio_deteccao = a ∧ a ≤ t) ∧
    (s.detectando = false →
      a + 1500000 ≤ s.ultimo_tempo_deteccao ∧ s.ultimo_tempo_deteccao ≤ t)

/-- Timing invariant before any activation, at current time `t`: state Idle and
no deactivation recorded later than `t`. -/
def semAtivacao (s : State) (t : Nat) : Prop :=
  s.detectando = false ∧ s.ultimo_tempo_deteccao ≤ t

/-! ## Shape of the LED-matrix operations -/

theorem definirLED_of_lt {i : Nat} (r g b : Nat) (s : State) (h : i < NUMERO_LEDS) :
    definirLED i r g b s = { s with leds := s.leds.set i (pixelDe r g b) } := by
  simp [definirLED, h, pixelDe]

theorem foldl_definirLED (r g b : Nat) :
    ∀ (is : List Nat) (s : State), (∀ i ∈ is, i < NUMERO_LEDS) →
      is.foldl (fun st i => definirLED i r g b st) s =
        { s with leds := is.foldl (fun l i => l.set i (pixelDe r g b)) s.leds } := by
  intro is
  induction is with
  | nil => intro s _; rfl
  | cons i is ih =>
    intro s h
    have hi : i < NUMERO_LEDS := h i (List.mem_cons_self i is)
    have ht : ∀ j ∈ is, j < NUMERO_LEDS := fun j hj => h j (List.mem_cons_of_mem i hj)
    rw [List.foldl_cons, List.foldl_cons, definirLED_of_lt r g b s hi, ih _ ht]

theorem foldl_set_range {α : Type} (z : α) :
    ∀ (n : Nat) (l : List α), n ≤ l.length →
      (List.range n).foldl (fun l i => l.set i z) l = List.replicate n z ++ l.drop n := by
  intro n
  induction n with
  | zero => intro l _; simp
  | succ n ih =>
    intro l h
    have hn : n < l.length := h
    rw [List.range_succ, List.foldl_append, ih l (Nat.le_of_lt hn), List.foldl_cons,
      List.foldl_nil, List.set_append_right n z (by simp), List.length_replicate, Nat.sub_self,
      List.drop_eq_getElem_cons hn, List.set_cons_zero, List.replicate_succ', List.append_assoc]
    rfl

theorem range_lt_NUMERO_LEDS : ∀ i ∈ List.range NUMERO_LEDS, i < NUMERO_LEDS :=
  fun _ hi => List.mem_range.mp hi

theorem limpar_np_eq (s : State) (h : s.leds.length = NUMERO_LEDS) :
    limpar_np s = { s with leds := List.replicate NUMERO_LEDS ⟨0, 0, 0⟩ } := by
  unfold limpar_np
  rw [foldl_definirLED 0 0 0 _ s range_lt_NUMERO_LEDS,
    foldl_set_range _ NUMERO_LEDS s.leds (Nat.le_of_eq h.symm)]
  have : List.drop NUMERO_LEDS s.leds = [] := List.drop_eq_nil_of_le (Nat.le_of_eq h)
  rw [this, List.append_nil]
  rfl

theorem foldl_put (leds : List pixel_t) :
    ∀ (is : List Nat) (s : State), s.leds = leds →
      is.foldl
        (fun st i =>
          pio_sm_put_blocking (ledAt st i).B
            (pio_sm_put_blocking (ledAt st i).R
              (pio_sm_put_blocking (ledAt st i).G st))) s =
        { s with fifo := s.fifo ++ serializar leds is } := by
  intro is
  induction is with
  | nil => intro s _; simp [serializar]
  | cons i is ih =>
    intro s h
    rw [List.foldl_cons, ih _ (by simp [pio_sm_put_blocking, h])]
    subst h
    simp [pio_sm_put_blocking, ledAt, serializar]

theorem escrever_np_eq (s : State) :
    escrever_np s = { s with fifo := s.fifo ++ serializar s.leds (List.range NUMERO_LEDS) } :=
  foldl_put s.leds _ s rfl

theorem padrao_alarme_eq (s : State) (h : s.leds.length = NUMERO_LEDS) :
    padrao_alarme s = { s with leds := ledsAlarme } := by
  unfold padrao_alarme
  rw [limpar_np_eq s h, foldl_definirLED brilho 0 0 _ _ (by decide)]
  rfl

/-! ## What the detection and hold steps leave alone -/

theorem foldl_definirLED_shape (r g b : Nat) :
    ∀ (is : List Nat) (s : State),
      ∃ l f, is.foldl (fun st i => definirLED i r g b st) s =
        { s with leds := l, fora_do_array := f } := by
  intro is
  induction is with
  | nil => intro s; exact ⟨s.leds, s.fora_do_array, rfl⟩
  | cons i is ih =>
    intro s
    obtain ⟨l, f, h⟩ := ih (definirLED i r g b s)
    refine ⟨l, f, ?_⟩
    rw [List.foldl_cons, h]
    unfold definirLED
    split <;> rfl

theorem limpar_np_shape (s : State) :
    ∃ l f, limpar_np s = { s with leds := l, fora_do_array := f } :=
  foldl_definirLED_shape 0 0 0 _ s

theorem padrao_alarme_shape (s : State) :
    ∃ l f, padrao_alarme s = { s with leds := l, fora_do_array := f } := by
  obtain ⟨l1, f1, h1⟩ := limpar_np_shape s
  obtain ⟨l2, f2, h2⟩ := foldl_definirLED_shape brilho 0 0
    [24, 20, 18, 16, 12, 8, 6, 4, 0, 12] (limpar_np s)
  exact ⟨l2, f2, by unfold padrao_alarme; rw [h2, h1]⟩

theorem padrao_repouso_shape (s : State) :
    ∃ l f, padrao_repouso s = { s with leds := l, fora_do_array := f } := by
  obtain ⟨l1, f1, h1⟩ := limpar_np_shape s
  obtain ⟨l2, f2, h2⟩ := foldl_definirLED_shape 0 brilho 0 (List.range NUMERO_LEDS) (limpar_np s)
  obtain ⟨l3, f3, h3⟩ := foldl_definirLED_shape 0 0 0
    [0, 1, 3, 4, 5, 7, 9, 11, 12, 13, 16, 18, 20, 22, 24]
    ((List.range NUMERO_LEDS).foldl (fun st i => definirLED i 0 brilho 0 st) (limpar_np s))
  exact ⟨l3, f3, by unfold padrao_repouso; rw [h3, h2, h1]⟩

theorem anel_ativar (r : Relogio) (s : State) : anel (ativar r s) = anel s := by
  unfold ativar
  simp only [escrever_np_eq]
  obtain ⟨l, f, h⟩ := padrao_alarme_shape
    (gpio_put PINO_LED_RGB false (gpio_put PINO_LED true
      { s with detectando := true, tempo_inicio_deteccao := r.inicio % 2 ^ 32 }))
  rw [h]
  rfl

theorem anel_desativar (r : Relogio) (s : State) : anel (desativar r s) = anel s := by
  unfold desativar
  simp only [escrever_np_eq]
  obtain ⟨l, f, h⟩ := limpar_np_shape
    (gpio_put PINO_LED_RGB true (gpio_put PINO_LED false { s with detectando := false }))
  rw [h]
  rfl

theorem anel_passo_deteccao (amp : Int) (r : Relogio) (s : State) :
    anel (passo_deteccao amp r s) = anel s := by
  unfold passo_deteccao
  split
  · split
    · exact anel_ativar r s
    · split
      · obtain ⟨l, f, h⟩ := padrao_repouso_shape s
        rw [escrever_np_eq, h]
        rfl
      · rfl
  · rfl

theorem anel_passo_duracao (r : Relogio) (s : State) :
    anel (passo_duracao r s) = anel s := by
  unfold passo_duracao
  split
  · exact anel_desativar r s
  · rfl

theorem anel_main_loop (raw : Nat) (r : Relogio) (s : State) :
    anel (main_loop raw r s) = anel (amostrar raw s) := by
  unfold main_loop main_loop_deteccao
  rw [anel_passo_duracao, anel_passo_deteccao]

/-! ## The sample ring -/

theorem foldl_soma (l : List Nat) (n : Nat) :
    (List.range n).foldl (fun acc i => (acc + l.getD i 0) % 2 ^ 32) 0 =
      (l.take n).sum % 2 ^ 32 := by
  induction n with
  | zero => simp
  | succ n ih =>
    rw [List.range_succ, List.foldl_append, ih, List.foldl_cons, List.foldl_nil,
      List.take_succ, List.sum_append, List.getD_eq_getElem?_getD]
    cases l[n]? <;> simp [Nat.add_mod]

theorem soma_eq (s : State) :
    soma s = (s.valores_adc.take TAMANHO_AMOSTRA).sum % 2 ^ 32 :=
  foldl_soma s.valores_adc TAMANHO_AMOSTRA

theorem janela_length (xs : List Nat) : (janela xs).length = TAMANHO_AMOSTRA := by
  simp [janela]

theorem janela_snoc (xs : List Nat) (x : Nat) :
    janela (xs ++ [x]) = (janela xs).tail ++ [x] := by
  unfold janela
  rw [List.tail_drop, ← List.append_assoc, List.length_append, List.length_singleton,
    List.drop_append_of_le_length (by simp [TAMANHO_AMOSTRA])]

theorem janela_sum (xs : List Nat) : (janela xs).sum = (xs.reverse.take TAMANHO_AMOSTRA).sum := by
  unfold janela
  rw [List.drop_append_eq_append_drop, List.sum_append, List.drop_replicate, List.sum_replicate,
    List.length_replicate]
  have h : List.take TAMANHO_AMOSTRA xs.reverse = (List.drop (xs.length - TAMANHO_AMOSTRA) xs).reverse := by
    have := @List.reverse_take _ xs.reverse TAMANHO_AMOSTRA
    rw [List.reverse_reverse, List.length_reverse] at this
    rw [← this, List.reverse_reverse]
  rw [h, List.sum_reverse]
  simp

theorem janela_le (xs : List Nat) (B : Nat) (h : ∀ x ∈ xs, x ≤ B) : ∀ v ∈ janela xs, v ≤ B := by
  intro v hv
  have hv2 := List.mem_of_mem_drop hv
  rcases List.mem_append.mp hv2 with h1 | h1
  · rw [(List.mem_replicate.mp h1).2]; exact Nat.zero_le B
  · exact h v h1

theorem rotate_set_succ (l : List Nat) (c x : Nat) (hc : c < l.length) :
    (l.set c x).rotate ((c + 1) % l.length) = (l.rotate c).tail ++ [x] := by
  have hlen : (l.set c x).length = l.length := List.length_set _ _ _
  have hs : l.set c x = (l.take c ++ [x]) ++ l.drop (c + 1) := by
    rw [List.set_eq_take_append_cons_drop, if_pos hc]; simp
  have hA : (l.take c ++ [x]).length = c + 1 := by
    rw [List.length_append, List.length_take, List.length_singleton]; omega
  rw [← hlen, List.rotate_mod, hs, ← hA, List.rotate_append_length_eq,
    List.rotate_eq_drop_append_take (Nat.le_of_lt hc), List.drop_eq_getElem_cons hc,
    List.cons_append, List.tail_cons, List.append_assoc, hA]

/-- Invariant of the pushes: the cursor counts the pushes modulo ten and the
ring, read from the cursor on, is the window of the last ten samples. -/
theorem amostrarTodos_inv (xs : List Nat) (hx : ∀ x ∈ xs, x ≤ 65535) :
    (amostrarTodos xs).valores_adc.length = TAMANHO_AMOSTRA ∧
      (amostrarTodos xs).indice = xs.length % TAMANHO_AMOSTRA ∧
      (amostrarTodos xs).valores_adc.rotate (amostrarTodos xs).indice = janela xs := by
  induction xs using List.reverseRecOn with
  | nil => exact ⟨rfl, rfl, rfl⟩
  | append_singleton xs x ih =>
    have hx1 : ∀ y ∈ xs, y ≤ 65535 := fun y hy => hx y (List.mem_append_left _ hy)
    have hx2 : x ≤ 65535 := hx x (List.mem_append_right _ (List.mem_singleton_self x))
    obtain ⟨h1, h2, h3⟩ := ih hx1
    have hstep : amostrarTodos (xs ++ [x]) = amostrar x (amostrarTodos xs) := by
      simp [amostrarTodos, List.foldl_append]
    have hc : (amostrarTodos xs).indice < (amostrarTodos xs).valores_adc.length := by
      rw [h1, h2]; exact Nat.mod_lt _ (by decide)
    rw [hstep]
    refine ⟨?_, ?_, ?_⟩
    · simp [amostrar, h1]
    · simp only [amostrar, h2, List.length_append, List.length_singleton, TAMANHO_AMOSTRA]
      omega
    · have hm : x % 65536 = x := Nat.mod_eq_of_lt (by omega)
      have hi : ((amostrarTodos xs).indice + 1) % TAMANHO_AMOSTRA % 256 =
          ((amostrarTodos xs).indice + 1) % (amostrarTodos xs).valores_adc.length := by
        rw [h1]; simp only [TAMANHO_AMOSTRA]; omega
      simp only [amostrar, hm, hi]
      rw [rotate_set_succ _ _ _ hc, h3, janela_snoc]

theorem anel_main_run (es : List (Nat × Relogio)) :
    ∀ (s t : State), s.valores_adc = t.valores_adc → s.indice = t.indice →
      (main_run es s).valores_adc =
          ((es.map Prod.fst).foldl (fun st x => amostrar x st) t).valores_adc ∧
        (main_run es s).indice =
          ((es.map Prod.fst).foldl (fun st x => amostrar x st) t).indice := by
  induction es with
  | nil => intro s t h1 h2; exact ⟨h1, h2⟩
  | cons e es ih =>
    intro s t h1 h2
    simp only [main_run, List.foldl_cons, List.map_cons]
    have h := anel_main_loop e.1 e.2 s
    simp only [anel, Prod.mk.injEq] at h
    apply ih
    · rw [h.1]; simp [amostrar, h1, h2]
    · rw [h.2.1]; simp [amostrar, h2]

theorem main_init_eq (adc : Nat → Nat) :
    main_init adc =
      { estado_reset with
        OFFSET_MIC := (calibrar_microfone adc estado_reset).OFFSET_MIC
        saida_led_rgb := true
        fifo := List.replicate 75 0 } := by
  unfold main_init
  simp only [escrever_np_eq]
  rw [limpar_np_eq _ (by rfl)]
  rfl

theorem valor_adc_medio_of_janela (s : State) (xs : List Nat) (hx : ∀ x ∈ xs, x ≤ 4095)
    (hlen : s.valores_adc.length = TAMANHO_AMOSTRA)
    (hrot : s.valores_adc.rotate s.indice = janela xs) :
    valor_adc_medio s = (xs.reverse.take 10).sum / 10 := by
  have hsum : s.valores_adc.sum = (xs.reverse.take 10).sum := by
    rw [← (List.rotate_perm s.valores_adc s.indice).sum_eq, hrot, janela_sum]; rfl
  have hle : (janela xs).sum ≤ 40950 := by
    have := List.sum_le_card_nsmul (janela xs) 4095 (janela_le xs 4095 hx)
    rw [janela_length] at this
    simpa [TAMANHO_AMOSTRA] using this
  have hle2 : s.valores_adc.sum ≤ 40950 := by
    rw [← (List.rotate_perm s.valores_adc s.indice).sum_eq, hrot]; exact hle
  unfold valor_adc_medio
  rw [soma_eq, ← hlen, List.take_length, hsum, hlen]
  rw [hsum] at hle2
  simp only [TAMANHO_AMOSTRA]
  omega

/-- C1. Smoother push: in every run of the loop from startup whose raw samples
all lie in 0..4095, the smoothed value `valor_adc_medio` computed by the next
iteration, after it has stored its sample `raw`, is the truncated quotient by 10
of the sum of the last 10 samples pushed (fewer than 10 pushes: the missing
samples count as 0). -/
theorem C1_smoother_mean_of_last_ten (adc : Nat → Nat) (es : List (Nat × Relogio)) (raw : Nat)
    (hes : ∀ e ∈ es, e.1 ≤ 4095) (hraw : raw ≤ 4095) :
    valor_adc_medio (amostrar raw (main_run es (main_init adc))) =
      ((es.map Prod.fst ++ [raw]).reverse.take 10).sum / 10 := by
  have hxs : ∀ x ∈ es.map Prod.fst ++ [raw], x ≤ 4095 := by
    intro x hx
    rcases List.mem_append.mp hx with h | h
    · obtain ⟨e, he, rfl⟩ := List.mem_map.mp h
      exact hes e he
    · rw [List.mem_singleton.mp h]; exact hraw
  have hrun := anel_main_run es (main_init adc) estado_reset
    (by rw [main_init_eq]) (by rw [main_init_eq])
  have hinv := amostrarTodos_inv (es.map Prod.fst ++ [raw])
    (fun x hx => Nat.le_trans (hxs x hx) (by decide))
  have hstep : amostrarTodos (es.map Prod.fst ++ [raw]) =
      amostrar raw ((es.map Prod.fst).foldl (fun st x => amostrar x st) estado_reset) := by
    simp [amostrarTodos, List.foldl_append]
  rw [hstep] at hinv
  have hv : (amostrar raw (main_run es (main_init adc))).valores_adc =
      (amostrar raw ((es.map Prod.fst).foldl (fun st x => amostrar x st) estado_reset)).valores_adc := by
    simp [amostrar, hrun.1, hrun.2]
  have hi : (amostrar raw (main_run es (main_init adc))).indice =
      (amostrar raw ((es.map Prod.fst).foldl (fun st x => amostrar x st) estado_reset)).indice := by
    simp [amostrar, hrun.2]
  apply valor_adc_medio_of_janela _ _ hxs
  · rw [hv]; exact hinv.1
  · rw [hv, hi]; exact hinv.2.2

/-- Witness of C1: three iterations with samples 100, 200, 300, then 4000. -/
theorem C1_smoother_mean_of_last_ten_witness :
    valor_adc_medio (amostrar 4000 (main_run
        [(100, Relogio.instante 0), (200, Relogio.instante 100000), (300, Relogio.instante 200000)]
        (main_init (fun _ => 2048)))) =
      (([(100, Relogio.instante 0), (200, Relogio.instante 100000),
          (300, Relogio.instante 200000)].map Prod.fst ++ [4000]).reverse.take 10).sum / 10 :=
  C1_smoother_mean_of_last_ten (fun _ => 2048) _ 4000 (by decide) (by decide)

/-! ## The two transitions -/

theorem ativar_shape (r : Relogio) (s : State) :
    ∃ l f, ativar r s =
      { s with
        detectando := true
        tempo_inicio_deteccao := r.inicio % 2 ^ 32
        saida_led := true
        saida_led_rgb := false
        leds := l
        fora_do_array := f
        fifo := s.fifo ++ serializar l (List.range NUMERO_LEDS)
        nivel_buzzer := 2048 } := by
  obtain ⟨l, f, h⟩ := padrao_alarme_shape
    (gpio_put PINO_LED_RGB false (gpio_put PINO_LED true
      { s with detectando := true, tempo_inicio_deteccao := r.inicio % 2 ^ 32 }))
  refine ⟨l, f, ?_⟩
  unfold ativar
  simp only [escrever_np_eq]
  rw [h]
  rfl

theorem ativar_eq (r : Relogio) (s : State) (h : s.leds.length = NUMERO_LEDS) :
    ativar r s =
      { s with
        detectando := true
        tempo_inicio_deteccao := r.inicio % 2 ^ 32
        saida_led := true
        saida_led_rgb := false
        leds := ledsAlarme
        fifo := s.fifo ++ serializar ledsAlarme (List.range NUMERO_LEDS)
        nivel_buzzer := 2048 } := by
  unfold ativar
  simp only [escrever_np_eq]
  rw [padrao_alarme_eq (gpio_put PINO_LED_RGB false (gpio_put PINO_LED true
    { s with detectando := true, tempo_inicio_deteccao := r.inicio % 2 ^ 32 })) h]
  rfl

theorem desativar_shape (r : Relogio) (s : State) :
    ∃ l f, desativar r s =
      { s with
        detectando := false
        saida_led := false
        saida_led_rgb := true
        leds := l
        fora_do_array := f
        fifo := s.fifo ++ serializar l (List.range NUMERO_LEDS)
        nivel_buzzer := 0
        ultimo_tempo_deteccao := r.fim % 2 ^ 32 } := by
  obtain ⟨l, f, h⟩ := limpar_np_shape
    (gpio_put PINO_LED_RGB true (gpio_put PINO_LED false { s with detectando := false }))
  refine ⟨l, f, ?_⟩
  unfold desativar
  simp only [escrever_np_eq]
  rw [h]
  rfl

theorem desativar_eq (r : Relogio) (s : State) (h : s.leds.length = NUMERO_LEDS) :
    desativar r s =
      { s with
        detectando := false
        saida_led := false
        saida_led_rgb := true
        leds := List.replicate NUMERO_LEDS ⟨0, 0, 0⟩
        fifo := s.fifo ++ List.replicate 75 0
        nivel_buzzer := 0
        ultimo_tempo_deteccao := r.fim % 2 ^ 32 } := by
  unfold desativar
  simp only [escrever_np_eq]
  rw [limpar_np_eq (gpio_put PINO_LED_RGB true (gpio_put PINO_LED false
    { s with detectando := false })) h]
  rfl

theorem passo_deteccao_ativo (amp : Int) (r : Relogio) (s : State) (h : s.detectando = true) :
    passo_deteccao amp r s = s := by
  simp [passo_deteccao, h]

theorem passo_deteccao_fechado (amp : Int) (r : Relogio) (s : State)
    (h : sub32 r.debounce s.ultimo_tempo_deteccao < TEMPO_DEBOUNCE * 1000) :
    passo_deteccao amp r s = s := by
  unfold passo_deteccao
  rw [if_neg (Nat.not_le.mpr h)]

theorem passo_deteccao_dispara (amp : Int) (r : Relogio) (s : State)
    (hi : s.detectando = false)
    (hg : sub32 r.debounce s.ultimo_tempo_deteccao ≥ TEMPO_DEBOUNCE * 1000)
    (ha : amp > LIMIAR_RUIDO) :
    passo_deteccao amp r s = ativar r s := by
  unfold passo_deteccao
  rw [if_pos hg, if_pos ⟨ha, hi⟩]

theorem passo_deteccao_repouso (amp : Int) (r : Relogio) (s : State)
    (hi : s.detectando = false)
    (hg : sub32 r.debounce s.ultimo_tempo_deteccao ≥ TEMPO_DEBOUNCE * 1000)
    (ha : ¬ amp > LIMIAR_RUIDO) :
    passo_deteccao amp r s = escrever_np (padrao_repouso s) := by
  unfold passo_deteccao
  rw [if_pos hg, if_neg (fun h => ha h.1), if_pos hi]

theorem detectando_ativar (r : Relogio) (s : State) : (ativar r s).detectando = true := by
  obtain ⟨l, f, h⟩ := ativar_shape r s
  rw [h]

theorem tempos_repouso (s : State) :
    (escrever_np (padrao_repouso s)).detectando = s.detectando ∧
      (escrever_np (padrao_repouso s)).ultimo_tempo_deteccao = s.ultimo_tempo_deteccao ∧
      (escrever_np (padrao_repouso s)).tempo_inicio_deteccao = s.tempo_inicio_deteccao := by
  obtain ⟨l, f, h⟩ := padrao_repouso_shape s
  rw [escrever_np_eq, h]
  exact ⟨rfl, rfl, rfl⟩

theorem amostrar_tempos (raw : Nat) (s : State) :
    (amostrar raw s).detectando = s.detectando ∧
      (amostrar raw s).ultimo_tempo_deteccao = s.ultimo_tempo_deteccao ∧
      (amostrar raw s).tempo_inicio_deteccao = s.tempo_inicio_deteccao :=
  ⟨rfl, rfl, rfl⟩

/-- In state Idle the detection step ends Active exactly when the gate is open
and the amplitude exceeds the threshold. -/
theorem detectando_passo_deteccao (amp : Int) (r : Relogio) (s : State)
    (hi : s.detectando = false) :
    (passo_deteccao amp r s).detectando = true ↔
      sub32 r.debounce s.ultimo_tempo_deteccao ≥ TEMPO_DEBOUNCE * 1000 ∧ amp > LIMIAR_RUIDO := by
  by_cases hg : sub32 r.debounce s.ultimo_tempo_deteccao ≥ TEMPO_DEBOUNCE * 1000
  · by_cases ha : amp > LIMIAR_RUIDO
    · rw [passo_deteccao_dispara amp r s hi hg ha, detectando_ativar]
      exact ⟨fun _ => ⟨hg, ha⟩, fun _ => rfl⟩
    · rw [passo_deteccao_repouso amp r s hi hg ha, (tempos_repouso s).1, hi]
      exact ⟨fun h => absurd h (by decide), fun h => absurd h.2 ha⟩
  · rw [passo_deteccao_fechado amp r s (Nat.lt_of_not_le hg), hi]
    exact ⟨fun h => absurd h (by decide), fun h => absurd h.1 hg⟩

theorem passo_duracao_repouso (r : Relogio) (s : State) (h : s.detectando = false) :
    passo_duracao r s = s := by
  simp [passo_duracao, h]

theorem passo_duracao_mantem (r : Relogio) (s : State)
    (h : sub32 r.duracao s.tempo_inicio_deteccao < DURACAO_DETECCAO * 1000) :
    passo_duracao r s = s := by
  unfold passo_duracao
  rw [if_neg (fun hc => absurd hc.2 (Nat.not_le.mpr h))]

theorem passo_duracao_expira (r : Relogio) (s : State) (ha : s.detectando = true)
    (h : sub32 r.duracao s.tempo_inicio_deteccao ≥ DURACAO_DETECCAO * 1000) :
    passo_duracao r s = desativar r s := by
  unfold passo_duracao
  rw [if_pos ⟨ha, h⟩]

theorem main_loop_ativo (raw : Nat) (r : Relogio) (s : State) (h : s.detectando = true) :
    main_loop raw r s = passo_duracao r (amostrar raw s) := by
  unfold main_loop main_loop_deteccao
  rw [passo_deteccao_ativo _ _ _ (by exact h)]

/-! ## Detection, hold and debounce -/

theorem sub32_mod_right (a b : Nat) : sub32 a (b % 2 ^ 32) = sub32 a b := by
  simp [sub32]

theorem main_loop_fechado (raw : Nat) (r : Relogio) (s : State) (hi : s.detectando = false)
    (hg : sub32 r.debounce s.ultimo_tempo_deteccao < 500000) :
    main_loop raw r s = amostrar raw s := by
  unfold main_loop main_loop_deteccao
  rw [passo_deteccao_fechado _ r (amostrar raw s) hg, passo_duracao_repouso r (amostrar raw s) hi]

theorem main_run_fechado (t : Nat) (es : List (Nat × Relogio))
    (hes : ∀ e ∈ es, sub32 e.2.debounce t < 500000) :
    ∀ s : State, s.detectando = false → s.ultimo_tempo_deteccao = t % 2 ^ 32 →
      (main_run es s).detectando = false ∧
        (main_run es s).ultimo_tempo_deteccao = t % 2 ^ 32 := by
  induction es with
  | nil => intro s h1 h2; exact ⟨h1, h2⟩
  | cons e es ih =>
    intro s h1 h2
    have he : sub32 e.2.debounce s.ultimo_tempo_deteccao < 500000 := by
      rw [h2, sub32_mod_right]; exact hes e (List.mem_cons_self e es)
    simp only [main_run, List.foldl_cons]
    rw [main_loop_fechado e.1 e.2 s h1 he]
    exact ih (fun e' he' => hes e' (List.mem_cons_of_mem e he')) (amostrar e.1 s) h1 h2

/-- An iteration that performs the Idle-to-Active transition ends as its
detection step left it, provided its hold reading of the counter is less than
1500000 us after its activation reading. -/
theorem main_loop_dispara (raw : Nat) (r : Relogio) (s : State)
    (hi : s.detectando = false)
    (hg : sub32 r.debounce s.ultimo_tempo_deteccao ≥ 500000)
    (hamp : amplitude (amostrar raw s) > 50)
    (hd : sub32 r.duracao r.inicio < 1500000) :
    main_loop raw r s = main_loop_deteccao raw r s := by
  have h1 : main_loop_deteccao raw r s = ativar r (amostrar raw s) :=
    passo_deteccao_dispara _ r (amostrar raw s) hi hg hamp
  unfold main_loop
  rw [h1]
  apply passo_duracao_mantem
  obtain ⟨l, f, hs⟩ := ativar_shape r (amostrar raw s)
  rw [hs]
  show sub32 r.duracao (r.inicio % 2 ^ 32) < DURACAO_DETECCAO * 1000
  rw [sub32_mod_right]
  exact hd

/-- C2. Idle-to-Active transition condition: for an iteration entered in state
Idle, the state after the detection step is Active if and only if the debounce
gate is open (`time_us_32() - ultimo_tempo_deteccao >= 500000` in `uint32_t`) and
the amplitude exceeds 50; for an iteration entered in state Active the detection
step changes nothing beyond the sampling, so the activation effects do not run
again. -/
theorem C2_idle_to_active_iff_gate_and_amplitude (raw : Nat) (r : Relogio) (s : State) :
    (s.detectando = false →
      ((main_loop_deteccao raw r s).detectando = true ↔
        sub32 r.debounce s.ultimo_tempo_deteccao ≥ 500000 ∧ amplitude (amostrar raw s) > 50)) ∧
      (s.detectando = true → main_loop_deteccao raw r s = amostrar raw s) := by
  constructor
  · intro hi
    exact detectando_passo_deteccao (amplitude (amostrar raw s)) r (amostrar raw s) hi
  · intro ha
    exact passo_deteccao_ativo _ r (amostrar raw s) ha

/-- Witness of C2: the first iteration after startup at 600000 us (Idle), and an
iteration entered in the Active state it produces. -/
theorem C2_idle_to_active_iff_gate_and_amplitude_witness :
    ((main_loop_deteccao 2048 (Relogio.instante 600000) (main_init (fun _ => 2048))).detectando
          = true ↔
        sub32 600000 (main_init (fun _ => 2048)).ultimo_tempo_deteccao ≥ 500000 ∧
          amplitude (amostrar 2048 (main_init (fun _ => 2048))) > 50) ∧
      main_loop_deteccao 2048 (Relogio.instante 700000)
          (main_loop 2048 (Relogio.instante 600000) (main_init (fun _ => 2048))) =
        amostrar 2048 (main_loop 2048 (Relogio.instante 600000) (main_init (fun _ => 2048))) :=
  ⟨(C2_idle_to_active_iff_gate_and_amplitude 2048 (Relogio.instante 600000)
      (main_init (fun _ => 2048))).1 (by decide),
    (C2_idle_to_active_iff_gate_and_amplitude 2048 (Relogio.instante 700000)
      (main_loop 2048 (Relogio.instante 600000) (main_init (fun _ => 2048)))).2 (by decide)⟩

/-- C3. Hold timer: for an iteration entered in state Active, whatever the sample,
the buffer contents and the debounce reading, the state after the iteration is
Active when `time_us_32() - tempo_inicio_deteccao < 1500000` and Idle when that
difference is at least 1500000. -/
theorem C3_hold_timer (raw : Nat) (r : Relogio) (s : State) (ha : s.detectando = true) :
    (sub32 r.duracao s.tempo_inicio_deteccao < 1500000 →
        (main_loop raw r s).detectando = true) ∧
      (sub32 r.duracao s.tempo_inicio_deteccao ≥ 1500000 →
        (main_loop raw r s).detectando = false) := by
  rw [main_loop_ativo raw r s ha]
  constructor
  · intro h
    rw [passo_duracao_mantem r (amostrar raw s) h]
    exact ha
  · intro h
    rw [passo_duracao_expira r (amostrar raw s) ha h]
    obtain ⟨l, f, hd⟩ := desativar_shape r (amostrar raw s)
    rw [hd]

/-- Witness of C3: the Active state reached at 600000 us is still Active at
700000 us and Idle at 2100000 us. -/
theorem C3_hold_timer_witness :
    (main_loop 2048 (Relogio.instante 600000) (main_init (fun _ => 2048))).detectando = true ∧
      (main_loop 0 (Relogio.instante 700000) (main_loop 2048 (Relogio.instante 600000)
        (main_init (fun _ => 2048)))).detectando = true ∧
      (main_loop 0 (Relogio.instante 2100000) (main_loop 2048 (Relogio.instante 600000)
        (main_init (fun _ => 2048)))).detectando = false :=
  ⟨by decide,
    (C3_hold_timer 0 (Relogio.instante 700000)
      (main_loop 2048 (Relogio.instante 600000) (main_init (fun _ => 2048))) (by decide)).1
      (by decide),
    (C3_hold_timer 0 (Relogio.instante 2100000)
      (main_loop 2048 (Relogio.instante 600000) (main_init (fun _ => 2048))) (by decide)).2
      (by decide)⟩

/-- C4. Debounce after deactivation: when an iteration entered in state Active
finds the hold expired, it ends Idle with `ultimo_tempo_deteccao` set to its last
reading `t` of the counter. From there, through every run of iterations whose
debounce readings `t'` all satisfy `t' - t < 500000`, the state stays Idle
whatever the samples are (and `ultimo_tempo_deteccao` keeps `t`); and after any
run that leaves the state Idle with `ultimo_tempo_deteccao` still `t`, an
iteration with `t' - t >= 500000` and an amplitude above 50 makes the state
Active in its detection step, and Active it stays to the end of that iteration
when the counter does not advance by 1500000 us within it. -/
theorem C4_debounce_after_deactivation (raw : Nat) (r : Relogio) (s : State)
    (es : List (Nat × Relogio)) (raw' : Nat) (r' : Relogio)
    (ha : s.detectando = true)
    (hexp : sub32 r.duracao s.tempo_inicio_deteccao ≥ 1500000) :
    (main_loop raw r s).detectando = false ∧
      (main_loop raw r s).ultimo_tempo_deteccao = r.fim % 2 ^ 32 ∧
      ((∀ e ∈ es, sub32 e.2.debounce r.fim < 500000) →
        (main_run es (main_loop raw r s)).detectando = false ∧
          (main_run es (main_loop raw r s)).ultimo_tempo_deteccao = r.fim % 2 ^ 32) ∧
      ((main_run es (main_loop raw r s)).detectando = false →
        (main_run es (main_loop raw r s)).ultimo_tempo_deteccao = r.fim % 2 ^ 32 →
        sub32 r'.debounce r.fim ≥ 500000 →
        amplitude (amostrar raw' (main_run es (main_loop raw r s))) > 50 →
        (main_loop_deteccao raw' r' (main_run es (main_loop raw r s))).detectando = true ∧
          (sub32 r'.duracao r'.inicio < 1500000 →
            (main_loop raw' r' (main_run es (main_loop raw r s))).detectando = true)) := by
  have h1 : (main_loop raw r s).detectando = false ∧
      (main_loop raw r s).ultimo_tempo_deteccao = r.fim % 2 ^ 32 := by
    rw [main_loop_ativo raw r s ha, passo_duracao_expira r (amostrar raw s) ha hexp]
    obtain ⟨l, f, hd⟩ := desativar_shape r (amostrar raw s)
    rw [hd]
    exact ⟨rfl, rfl⟩
  refine ⟨h1.1, h1.2, ?_, ?_⟩
  · intro hes
    exact main_run_fechado r.fim es hes (main_loop raw r s) h1.1 h1.2
  · intro hi hu hg hamp
    have hg2 : sub32 r'.debounce (main_run es (main_loop raw r s)).ultimo_tempo_deteccao
        ≥ 500000 := by
      rw [hu, sub32_mod_right]; exact hg
    have hact : (main_loop_deteccao raw' r' (main_run es (main_loop raw r s))).detectando
        = true :=
      (detectando_passo_deteccao _ r' (amostrar raw' (main_run es (main_loop raw r s))) hi).mpr
        ⟨hg2, hamp⟩
    refine ⟨hact, fun hd => ?_⟩
    rw [main_loop_dispara raw' r' _ hi hg2 hamp hd]
    exact hact

/-- Witness of C4: activation at 600000 us, deactivation at 2100000 us, a spike
at 2200000 us and 2500000 us (ignored) and a spike at 2600000 us (detected). -/
theorem C4_debounce_after_deactivation_witness :
    (main_run [(0, Relogio.instante 2200000), (0, Relogio.instante 2500000)]
        (main_loop 2048 (Relogio.instante 2100000)
          (main_loop 2048 (Relogio.instante 600000) (main_init (fun _ => 2048))))).detectando
          = false ∧
      (main_loop 0 (Relogio.instante 2600000)
        (main_run [(0, Relogio.instante 2200000), (0, Relogio.instante 2500000)]
          (main_loop 2048 (Relogio.instante 2100000)
            (main_loop 2048 (Relogio.instante 600000)
              (main_init (fun _ => 2048)))))).detectando = true :=
  have h := C4_debounce_after_deactivation 2048 (Relogio.instante 2100000)
    (main_loop 2048 (Relogio.instante 600000) (main_init (fun _ => 2048)))
    [(0, Relogio.instante 2200000), (0, Relogio.instante 2500000)] 0
    (Relogio.instante 2600000) (by decide) (by decide)
  ⟨(h.2.2.1 (by decide)).1,
    (h.2.2.2 (by decide) (by decide) (by decide) (by decide)).2 (by decide)⟩

/-- C5 as stated fails: on the first iteration after startup at 600000 us the
Idle-to-Active transition is performed, and it leaves the RGB status LED output
at 0 and the indicator LED output at 1. -/
theorem C5_activation_leds_counterexample :
    (main_init (fun _ => 2048)).detectando = false ∧
      (main_loop 2048 (Relogio.instante 600000) (main_init (fun _ => 2048))).detectando = true ∧
      ¬ ((main_loop 2048 (Relogio.instante 600000) (main_init (fun _ => 2048))).saida_led_rgb
            = true ∧
          (main_loop 2048 (Relogio.instante 600000) (main_init (fun _ => 2048))).saida_led
            = false) := by
  decide

/-- C5, amended. Effects of the Idle-to-Active transition: on every iteration
that performs it (entered Idle, gate open, amplitude above 50), after the
detection step `tempo_inicio_deteccao` is the reading of the counter taken at the
transition, the indicator LED output is 1 and the RGB status LED output is 0, the
pixel buffer holds the alarm pattern and its 75 bytes have been appended to the
FIFO, and the buzzer level is 2048; nothing else changes in that step, and the
hold step of the same iteration leaves all of it in place unless 1500000 us have
already passed since that reading. -/
theorem C5_activation_effects (raw : Nat) (r : Relogio) (s : State)
    (hl : s.leds.length = 25)
    (hi : s.detectando = false)
    (hg : sub32 r.debounce s.ultimo_tempo_deteccao ≥ 500000)
    (hamp : amplitude (amostrar raw s) > 50) :
    main_loop_deteccao raw r s =
        { amostrar raw s with
          detectando := true
          tempo_inicio_deteccao := r.inicio % 2 ^ 32
          saida_led := true
          saida_led_rgb := false
          leds := ledsAlarme
          fifo := s.fifo ++ serializar ledsAlarme (List.range 25)
          nivel_buzzer := 2048 } ∧
      (serializar ledsAlarme (List.range 25)).length = 75 ∧
      (sub32 r.duracao r.inicio < 1500000 → main_loop raw r s = main_loop_deteccao raw r s) := by
  have h1 : main_loop_deteccao raw r s = ativar r (amostrar raw s) :=
    passo_deteccao_dispara _ r (amostrar raw s) hi hg hamp
  refine ⟨?_, by decide, ?_⟩
  · rw [h1, ativar_eq r (amostrar raw s) hl]
    rfl
  · intro hd
    exact main_loop_dispara raw r s hi hg hamp hd

/-- Witness of C5: the first iteration after startup, at 600000 us. -/
theorem C5_activation_effects_witness :
    (main_loop_deteccao 2048 (Relogio.instante 600000) (main_init (fun _ => 2048))).saida_led
        = true ∧
      (main_loop_deteccao 2048 (Relogio.instante 600000)
        (main_init (fun _ => 2048))).saida_led_rgb = false ∧
      (main_loop_deteccao 2048 (Relogio.instante 600000) (main_init (fun _ => 2048))).leds
        = ledsAlarme :=
  have h := (C5_activation_effects 2048 (Relogio.instante 600000) (main_init (fun _ => 2048))
    (by decide) (by decide) (by decide) (by decide)).1
  ⟨by rw [h], by rw [h], by rw [h]⟩

/-- C6. Effects of the Active-to-Idle transition: on every iteration that
performs it (entered Active, hold expired), the indicator LED output is 0, the
RGB status LED output is 1, every pixel of the buffer is (0,0,0) and the 75 zero
bytes of that buffer have been appended to the FIFO, the buzzer level is 0 and
`ultimo_tempo_deteccao` is the reading of the counter taken at the transition;
apart from the sampling nothing else changes. -/
theorem C6_deactivation_effects (raw : Nat) (r : Relogio) (s : State)
    (hl : s.leds.length = 25)
    (ha : s.detectando = true)
    (hexp : sub32 r.duracao s.tempo_inicio_deteccao ≥ 1500000) :
    main_loop raw r s =
        { amostrar raw s with
          detectando := false
          saida_led := false
          saida_led_rgb := true
          leds := List.replicate 25 ⟨0, 0, 0⟩
          fifo := s.fifo ++ List.replicate 75 0
          nivel_buzzer := 0
          ultimo_tempo_deteccao := r.fim % 2 ^ 32 } := by
  rw [main_loop_ativo raw r s ha, passo_duracao_expira r (amostrar raw s) ha hexp,
    desativar_eq r (amostrar raw s) hl]
  rfl

/-- Witness of C6: the Active state reached at 600000 us, left at 2100000 us. -/
theorem C6_deactivation_effects_witness :
    (main_loop 0 (Relogio.instante 2100000) (main_loop 2048 (Relogio.instante 600000)
        (main_init (fun _ => 2048)))).nivel_buzzer = 0 ∧
      (main_loop 0 (Relogio.instante 2100000) (main_loop 2048 (Relogio.instante 600000)
        (main_init (fun _ => 2048)))).ultimo_tempo_deteccao = 2100000 :=
  have h := C6_deactivation_effects 0 (Relogio.instante 2100000)
    (main_loop 2048 (Relogio.instante 600000) (main_init (fun _ => 2048)))
    (by decide) (by decide) (by decide)
  ⟨by rw [h], by rw [h]; rfl⟩

/-! ## Amplitude -/

theorem excessBitsAux_le (j : Nat) :
    ∀ (fuel p : Nat), p < 2 ^ (53 + j) → excessBitsAux fuel p ≤ j := by
  induction j with
  | zero =>
    intro fuel p hp
    cases fuel with
    | zero => simp [excessBitsAux]
    | succ f =>
      have hp2 : p < 2 ^ 53 := hp
      unfold excessBitsAux
      rw [if_pos hp2]
  | succ j ih =>
    intro fuel p hp
    cases fuel with
    | zero => simp [excessBitsAux]
    | succ f =>
      unfold excessBitsAux
      split
      · omega
      · have h2 : p / 2 < 2 ^ (53 + j) := by
          have : 2 ^ (53 + (j + 1)) = 2 * 2 ^ (53 + j) := by
            rw [← Nat.add_assoc, Nat.pow_succ]; omega
          omega
        have := ih f (p / 2) h2
        omega

/-- On 12-bit operands the binary64 product with `1.3`, truncated, is the exact
`floor (d * 13 / 10)`: the rounding of the product never reaches the next integer. -/
theorem mulTrunc_ganho (d : Nat) (hd : d ≤ 4095) :
    mulTrunc d GANHO_AMPLITUDE = d * 13 / 10 := by
  have he : excessBits (d * 5854679515581645) ≤ 12 := by
    apply excessBitsAux_le
    norm_num
    omega
  simp only [mulTrunc, GANHO_AMPLITUDE]
  generalize excessBits (d * 5854679515581645) = e at he
  interval_cases e <;> simp only [roundNearestEven] <;> norm_num <;> split <;> omega

theorem toInt16_of_small (n : Nat) (h : n < 32768) : toInt16 (n : Int) = (n : Int) := by
  unfold toInt16
  have h1 : (n : Int) % 65536 = (n : Int) := by omega
  simp only [h1]
  rw [if_pos (by omega)]

theorem amplitudeDe_eq (s o : Nat) (hs : s ≤ 4095) (ho : o ≤ 4095) :
    amplitudeDe s o = ((Int.natAbs ((s : Int) - (o : Int)) * 13 / 10 : Nat) : Int) ∧
      Int.natAbs ((s : Int) - (o : Int)) ≤ 4095 := by
  have hd : Int.natAbs ((s : Int) - (o : Int)) ≤ 4095 := by omega
  refine ⟨?_, hd⟩
  unfold amplitudeDe
  rw [toInt16_of_small s (by omega), mulTrunc_ganho _ hd]
  exact toInt16_of_small _ (by omega)

/-- C7. Amplitude computation: for a smoothed value `s` and a calibration offset
`o`, both in 0..4095, the amplitude of source line 144 (binary64 product with 1.3,
converted to `int16_t`) is `floor (|s - o| * 13 / 10)`, is non-negative and at
most 5323; for `o = 2048` and `s = 2090` it is 54, which exceeds the threshold 50,
and an iteration entered Idle with the gate open that computes this smoothed value
ends its detection step Active. -/
theorem C7_amplitude_value (s o : Nat) (hs : s ≤ 4095) (ho : o ≤ 4095) :
    amplitudeDe s o = ((Int.natAbs ((s : Int) - (o : Int)) * 13 / 10 : Nat) : Int) ∧
      0 ≤ amplitudeDe s o ∧ amplitudeDe s o ≤ 5323 ∧
      amplitudeDe 2090 2048 = 54 ∧ amplitudeDe 2090 2048 > LIMIAR_RUIDO ∧
      (∀ (raw : Nat) (r : Relogio) (st : State),
        st.detectando = false →
        sub32 r.debounce st.ultimo_tempo_deteccao ≥ 500000 →
        st.OFFSET_MIC = 2048 →
        valor_adc_medio (amostrar raw st) = 2090 →
        (main_loop_deteccao raw r st).detectando = true) := by
  obtain ⟨h1, h2⟩ := amplitudeDe_eq s o hs ho
  refine ⟨h1, ?_, ?_, by decide, by decide, ?_⟩
  · rw [h1]; exact Int.ofNat_nonneg _
  · rw [h1]; omega
  · intro raw r st hi hg ho2 hm
    refine (detectando_passo_deteccao _ r (amostrar raw st) hi).mpr ⟨hg, ?_⟩
    have ho3 : (amostrar raw st).OFFSET_MIC = 2048 := ho2
    unfold amplitude
    rw [hm, ho3]
    decide

/-- Witness of C7: `s = 2090`, `o = 2048`, and a ring full of 2090 with the
default offset. -/
theorem C7_amplitude_value_witness :
    amplitudeDe 2090 2048 = ((Int.natAbs ((2090 : Int) - (2048 : Int)) * 13 / 10 : Nat) : Int) ∧
      (main_loop_deteccao 2090 (Relogio.instante 600000)
        { estado_reset with valores_adc := List.replicate 10 2090 }).detectando = true :=
  have h := C7_amplitude_value 2090 2048 (by decide) (by decide)
  ⟨h.1, h.2.2.2.2.2 2090 (Relogio.instante 600000)
    { estado_reset with valores_adc := List.replicate 10 2090 }
    (by decide) (by decide) (by decide) (by decide)⟩

/-! ## Calibration -/

theorem foldl_calibrar (v : Nat) (hv : v ≤ 4095) :
    ∀ n : Nat, n ≤ 50 →
      (List.range n).foldl (fun soma i => (soma + (fun _ => v) i % 65536) % 2 ^ 32) 0 = n * v := by
  intro n
  induction n with
  | zero => intro _; simp
  | succ n ih =>
    intro hn
    rw [List.range_succ, List.foldl_append, ih (by omega), List.foldl_cons, List.foldl_nil]
    have h1 : n * v ≤ 50 * 4095 := Nat.mul_le_mul (by omega) hv
    have h2 : (n + 1) * v = n * v + v := by ring
    simp only []
    omega

/-- C8. Calibration: when each of the 50 calls of `adc_read()` made by
`calibrar_microfone` returns the same value `v` in 0..4095, `OFFSET_MIC` is set to
exactly `v`; so it is in the state in which `main` enters its loop. -/
theorem C8_calibration_constant_input (v : Nat) (hv : v ≤ 4095) (s : State) :
    (calibrar_microfone (fun _ => v) s).OFFSET_MIC = v ∧
      (main_init (fun _ => v)).OFFSET_MIC = v := by
  have h : ∀ t : State, (calibrar_microfone (fun _ => v) t).OFFSET_MIC = v := by
    intro t
    simp only [calibrar_microfone, AMOSTRAS_CALIBRACAO]
    rw [foldl_calibrar v hv 50 (Nat.le_refl 50)]
    omega
  refine ⟨h s, ?_⟩
  rw [main_init_eq]
  exact h estado_reset

/-- Witness of C8: a constant input of 1234. -/
theorem C8_calibration_constant_input_witness :
    (calibrar_microfone (fun _ => 1234) estado_reset).OFFSET_MIC = 1234 ∧
      (main_init (fun _ => 1234)).OFFSET_MIC = 1234 :=
  C8_calibration_constant_input 1234 (by decide) estado_reset

/-! ## Startup -/

theorem sub32_zero (a : Nat) : sub32 a 0 = a % 2 ^ 32 := by
  unfold sub32; omega

theorem primeira_deteccao (raw : Nat) (r : Relogio) (s : State)
    (hi : s.detectando = false) (hu : s.ultimo_tempo_deteccao = 0)
    (hnow : 500000 ≤ r.debounce % 2 ^ 32)
    (hamp : amplitude (amostrar raw s) > 50) :
    (main_loop_deteccao raw r s).detectando = true ∧
      (sub32 r.duracao r.inicio < 1500000 → (main_loop raw r s).detectando = true) := by
  have hg : sub32 r.debounce s.ultimo_tempo_deteccao ≥ 500000 := by
    rw [hu, sub32_zero]; exact hnow
  have hact : (main_loop_deteccao raw r s).detectando = true :=
    (detectando_passo_deteccao _ r (amostrar raw s) hi).mpr ⟨hg, hamp⟩
  refine ⟨hact, fun hd => ?_⟩
  rw [main_loop_dispara raw r s hi hg hamp hd]
  exact hact

/-- C9. Startup state: `main` enters its loop in state Idle with both timestamps
0, which does not block the first detection: on the first iteration, for every
reading of the counter that this iteration can get (at least the 1500000 us that
`main` has slept, the counter not yet wrapped), the gate is open and an amplitude
above the threshold makes the state Active in the detection step; the state is
still Active at the end of that iteration when the counter does not advance by
1500000 us within it. -/
theorem C9_startup_first_detection (adc : Nat → Nat) (raw : Nat) (r : Relogio)
    (hr : primeiraLeitura r)
    (hamp : amplitude (amostrar raw (main_init adc)) > 50) :
    (main_init adc).detectando = false ∧
      (main_init adc).tempo_inicio_deteccao = 0 ∧
      (main_init adc).ultimo_tempo_deteccao = 0 ∧
      sub32 r.debounce (main_init adc).ultimo_tempo_deteccao ≥ 500000 ∧
      (main_loop_deteccao raw r (main_init adc)).detectando = true ∧
      (sub32 r.duracao r.inicio < 1500000 →
        (main_loop raw r (main_init adc)).detectando = true) := by
  have h0 : (main_init adc).detectando = false ∧ (main_init adc).tempo_inicio_deteccao = 0 ∧
      (main_init adc).ultimo_tempo_deteccao = 0 := by
    rw [main_init_eq]; exact ⟨rfl, rfl, rfl⟩
  have he : ESPERA_INICIAL = 1500000 := by decide
  have hnow : 500000 ≤ r.debounce % 2 ^ 32 := by
    have h1 := hr.1
    rw [he] at h1
    rw [Nat.mod_eq_of_lt hr.2]
    omega
  have hs : sub32 r.debounce (main_init adc).ultimo_tempo_deteccao ≥ 500000 := by
    rw [h0.2.2, sub32_zero]; exact hnow
  exact ⟨h0.1, h0.2.1, h0.2.2, hs, primeira_deteccao raw r (main_init adc) h0.1 h0.2.2 hnow hamp⟩

/-- Witness of C9: a first iteration at 1500000 us, after a calibration on a
constant input of 2048. -/
theorem C9_startup_first_detection_witness :
    primeiraLeitura (Relogio.instante 1500000) ∧
      amplitude (amostrar 2048 (main_init (fun _ => 2048))) > 50 ∧
      (main_loop 2048 (Relogio.instante 1500000) (main_init (fun _ => 2048))).detectando
        = true :=
  ⟨by decide, by decide,
    (C9_startup_first_detection (fun _ => 2048) 2048 (Relogio.instante 1500000)
      (by decide) (by decide)).2.2.2.2.2 (by decide)⟩

/-! ## Flush -/

theorem serializar_range_succ (leds : List pixel_t) (n : Nat) :
    serializar leds (List.range (n + 1)) =
      serializar leds (List.range n) ++
        [(leds.getD n ⟨0, 0, 0⟩).G % 2 ^ 32, (leds.getD n ⟨0, 0, 0⟩).R % 2 ^ 32,
          (leds.getD n ⟨0, 0, 0⟩).B % 2 ^ 32] := by
  simp [serializar, List.range_succ, List.flatMap_append]

theorem serializar_length (leds : List pixel_t) (n : Nat) :
    (serializar leds (List.range n)).length = 3 * n := by
  induction n with
  | zero => simp [serializar]
  | succ n ih => rw [serializar_range_succ, List.length_append, ih]; simp; omega

theorem serializar_getElem? (leds : List pixel_t) (n : Nat) :
    ∀ i < n,
      (serializar leds (List.range n))[3 * i]? = some ((leds.getD i ⟨0, 0, 0⟩).G % 2 ^ 32) ∧
        (serializar leds (List.range n))[3 * i + 1]? =
          some ((leds.getD i ⟨0, 0, 0⟩).R % 2 ^ 32) ∧
        (serializar leds (List.range n))[3 * i + 2]? =
          some ((leds.getD i ⟨0, 0, 0⟩).B % 2 ^ 32) := by
  induction n with
  | zero => intro i hi; exact absurd hi (Nat.not_lt_zero i)
  | succ n ih =>
    intro i hi
    rw [serializar_range_succ]
    have hlen := serializar_length leds n
    rcases Nat.lt_succ_iff_lt_or_eq.mp hi with h | h
    · obtain ⟨h0, h1, h2⟩ := ih i h
      rw [List.getElem?_append_left (by omega), List.getElem?_append_left (by omega),
        List.getElem?_append_left (by omega)]
      exact ⟨h0, h1, h2⟩
    · subst h
      rw [List.getElem?_append_right (by omega), List.getElem?_append_right (by omega),
        List.getElem?_append_right (by omega), hlen]
      have e0 : 3 * i - 3 * i = 0 := by omega
      have e1 : 3 * i + 1 - 3 * i = 1 := by omega
      have e2 : 3 * i + 2 - 3 * i = 2 := by omega
      rw [e0, e1, e2]
      exact ⟨rfl, rfl, rfl⟩

theorem ledAt_canais (s : State) (h : ledsValidos s.leds) (i : Nat) (hi : i < 25) :
    (ledAt s i).G < 256 ∧ (ledAt s i).R < 256 ∧ (ledAt s i).B < 256 := by
  have hlt : i < s.leds.length := by rw [h.1]; exact hi
  have hmem : ledAt s i ∈ s.leds := by
    unfold ledAt
    rw [List.getD_eq_getElem _ _ hlt]
    exact List.getElem_mem hlt
  exact h.2 _ hmem

/-- C10. Flush wire order: for every contents of the pixel buffer (25 pixels with
8-bit channels), `escrever_np` appends exactly 75 words to the FIFO; for every `i`
in 0..24 the words at positions `3i`, `3i+1`, `3i+2` are the green, red and blue
channels of pixel `i`; the buffer, like every other field of the state, is
unchanged. -/
theorem C10_flush_wire_order (s : State) (h : ledsValidos s.leds) :
    ∃ bytes : List Nat,
      escrever_np s = { s with fifo := s.fifo ++ bytes } ∧
        bytes.length = 75 ∧
        (∀ i < 25,
          bytes[3 * i]? = some (ledAt s i).G ∧
            bytes[3 * i + 1]? = some (ledAt s i).R ∧
            bytes[3 * i + 2]? = some (ledAt s i).B) ∧
        (escrever_np s).leds = s.leds := by
  refine ⟨serializar s.leds (List.range NUMERO_LEDS), escrever_np_eq s,
    serializar_length s.leds NUMERO_LEDS, ?_, by rw [escrever_np_eq]⟩
  intro i hi
  obtain ⟨h0, h1, h2⟩ := serializar_getElem? s.leds NUMERO_LEDS i hi
  obtain ⟨c0, c1, c2⟩ := ledAt_canais s h i hi
  unfold ledAt at c0 c1 c2 ⊢
  rw [h0, h1, h2, Nat.mod_eq_of_lt (by omega), Nat.mod_eq_of_lt (by omega),
    Nat.mod_eq_of_lt (by omega)]
  exact ⟨rfl, rfl, rfl⟩

/-- Witness of C10: the flush of the alarm pattern. -/
theorem C10_flush_wire_order_witness :
    ∃ bytes : List Nat,
      escrever_np { estado_reset with leds := ledsAlarme } =
          { estado_reset with leds := ledsAlarme, fifo := [] ++ bytes } ∧
        bytes.length = 75 ∧
        (∀ i < 25,
          bytes[3 * i]? = some (ledAt { estado_reset with leds := ledsAlarme } i).G ∧
            bytes[3 * i + 1]? = some (ledAt { estado_reset with leds := ledsAlarme } i).R ∧
            bytes[3 * i + 2]? = some (ledAt { estado_reset with leds := ledsAlarme } i).B) ∧
        (escrever_np { estado_reset with leds := ledsAlarme }).leds = ledsAlarme :=
  C10_flush_wire_order { estado_reset with leds := ledsAlarme } (by decide)

/-! ## Clearing and rendering -/

theorem padrao_repouso_eq (s : State) (h : s.leds.length = NUMERO_LEDS) :
    padrao_repouso s = { s with leds := ledsRepouso } := by
  have hleds :
      [0, 1, 3, 4, 5, 7, 9, 11, 12, 13, 16, 18, 20, 22, 24].foldl
          (fun l i => l.set i (pixelDe 0 0 0))
          ((List.range NUMERO_LEDS).foldl (fun l i => l.set i (pixelDe 0 brilho 0))
            (List.replicate NUMERO_LEDS ⟨0, 0, 0⟩)) = ledsRepouso := by
    decide
  unfold padrao_repouso
  rw [limpar_np_eq s h, foldl_definirLED 0 brilho 0 _ _ range_lt_NUMERO_LEDS,
    foldl_definirLED 0 0 0 _ _ (by decide)]
  simp only []
  rw [hleds]

/-- C11. Clear then flush: whatever the 25 pixels of the buffer held before,
`limpar_np` followed by `escrever_np` leaves every pixel (0,0,0) and appends 75
words to the FIFO, all of them 0; nothing else changes. -/
theorem C11_clear_then_flush (s : State) (hl : s.leds.length = 25) :
    escrever_np (limpar_np s) =
        { s with
          leds := List.replicate 25 ⟨0, 0, 0⟩
          fifo := s.fifo ++ List.replicate 75 0 } ∧
      (∀ i < 25, ledAt (escrever_np (limpar_np s)) i = ⟨0, 0, 0⟩) ∧
      (∀ w ∈ (escrever_np (limpar_np s)).fifo.drop s.fifo.length, w = 0) := by
  have h : escrever_np (limpar_np s) =
      { s with
        leds := List.replicate 25 ⟨0, 0, 0⟩
        fifo := s.fifo ++ List.replicate 75 0 } := by
    rw [escrever_np_eq, limpar_np_eq s hl]
    rfl
  refine ⟨h, ?_, ?_⟩
  · intro i hi
    rw [h]
    simp only [ledAt]
    rw [List.getD_eq_getElem?_getD, List.getElem?_replicate, if_pos hi]
    rfl
  · intro w hw
    rw [h] at hw
    simp only [List.drop_left] at hw
    exact (List.mem_replicate.mp hw).2

/-- Witness of C11: clearing and flushing the alarm pattern. -/
theorem C11_clear_then_flush_witness :
    (escrever_np (limpar_np { estado_reset with leds := ledsAlarme })).fifo
      = List.replicate 75 0 :=
  have h := (C11_clear_then_flush { estado_reset with leds := ledsAlarme } (by decide)).1
  by rw [h]; rfl

/-- C12. Idle-pattern idempotence: whatever the 25 pixels of the buffer held
before, the idle render (the branch taken in state Idle with the gate open and
no trigger: `padrao_repouso` then `escrever_np`) run twice in a row leaves the
pixel buffer that one run leaves, which is the idle pattern. -/
theorem C12_idle_render_idempotent (s : State) (hl : s.leds.length = 25) :
    (escrever_np (padrao_repouso (escrever_np (padrao_repouso s)))).leds =
        (escrever_np (padrao_repouso s)).leds ∧
      (escrever_np (padrao_repouso s)).leds = ledsRepouso ∧
      (∀ (amp : Int) (r : Relogio), s.detectando = false →
        sub32 r.debounce s.ultimo_tempo_deteccao ≥ 500000 → ¬ amp > 50 →
        passo_deteccao amp r s = escrever_np (padrao_repouso s)) := by
  have h1 : (escrever_np (padrao_repouso s)).leds = ledsRepouso := by
    rw [escrever_np_eq, padrao_repouso_eq s hl]
  have h2 : (escrever_np (padrao_repouso s)).leds.length = NUMERO_LEDS := by
    rw [h1]; rfl
  refine ⟨?_, h1, fun amp r hi hg ha => passo_deteccao_repouso amp r s hi hg ha⟩
  rw [h1, escrever_np_eq, padrao_repouso_eq _ h2]

/-- Witness of C12: the idle render applied to the alarm pattern. -/
theorem C12_idle_render_idempotent_witness :
    (escrever_np (padrao_repouso (escrever_np (padrao_repouso
        { estado_reset with leds := ledsAlarme })))).leds =
      (escrever_np (padrao_repouso { estado_reset with leds := ledsAlarme })).leds :=
  (C12_idle_render_idempotent { estado_reset with leds := ledsAlarme } (by decide)).1

/-! ## Index validity -/

theorem definirLED_of_ge {i : Nat} (r g b : Nat) (s : State) (h : NUMERO_LEDS ≤ i) :
    definirLED i r g b s = { s with fora_do_array := true } := by
  simp [definirLED, Nat.not_lt.mpr h]

theorem fora_definirLED (i r g b : Nat) (s : State) :
    (definirLED i r g b s).fora_do_array = (s.fora_do_array || decide (25 ≤ i)) := by
  by_cases h : i < NUMERO_LEDS
  · have h2 : ¬ 25 ≤ i := Nat.not_le.mpr h
    rw [definirLED_of_lt r g b s h]
    simp [h2]
  · have h2 : 25 ≤ i := Nat.le_of_not_lt h
    rw [definirLED_of_ge r g b s h2]
    simp [h2]

theorem fora_limpar_np (s : State) : (limpar_np s).fora_do_array = s.fora_do_array := by
  unfold limpar_np
  rw [foldl_definirLED 0 0 0 _ s range_lt_NUMERO_LEDS]

theorem fora_padrao_alarme (s : State) :
    (padrao_alarme s).fora_do_array = s.fora_do_array := by
  unfold padrao_alarme
  rw [foldl_definirLED brilho 0 0 _ _ (by decide), fora_limpar_np]

theorem fora_padrao_repouso (s : State) :
    (padrao_repouso s).fora_do_array = s.fora_do_array := by
  unfold padrao_repouso
  rw [foldl_definirLED 0 0 0 _ _ (by decide),
    foldl_definirLED 0 brilho 0 _ _ range_lt_NUMERO_LEDS, fora_limpar_np]

theorem limpar_np_leds (s : State) : ∃ l, limpar_np s = { s with leds := l } :=
  ⟨_, foldl_definirLED 0 0 0 _ s range_lt_NUMERO_LEDS⟩

theorem padrao_alarme_leds (s : State) : ∃ l, padrao_alarme s = { s with leds := l } := by
  obtain ⟨l, h⟩ := limpar_np_leds s
  unfold padrao_alarme
  rw [foldl_definirLED brilho 0 0 _ _ (by decide), h]
  exact ⟨_, rfl⟩

theorem padrao_repouso_leds (s : State) : ∃ l, padrao_repouso s = { s with leds := l } := by
  obtain ⟨l, h⟩ := limpar_np_leds s
  unfold padrao_repouso
  rw [foldl_definirLED 0 0 0 _ _ (by decide),
    foldl_definirLED 0 brilho 0 _ _ range_lt_NUMERO_LEDS, h]
  exact ⟨_, rfl⟩

theorem fora_ativar (r : Relogio) (s : State) :
    (ativar r s).fora_do_array = s.fora_do_array := by
  obtain ⟨l, h⟩ := padrao_alarme_leds
    (gpio_put PINO_LED_RGB false (gpio_put PINO_LED true
      { s with detectando := true, tempo_inicio_deteccao := r.inicio % 2 ^ 32 }))
  unfold ativar
  simp only [escrever_np_eq]
  rw [h]
  rfl

theorem fora_desativar (r : Relogio) (s : State) :
    (desativar r s).fora_do_array = s.fora_do_array := by
  obtain ⟨l, h⟩ := limpar_np_leds
    (gpio_put PINO_LED_RGB true (gpio_put PINO_LED false { s with detectando := false }))
  unfold desativar
  simp only [escrever_np_eq]
  rw [h]
  rfl

theorem fora_passo_deteccao (amp : Int) (r : Relogio) (s : State) :
    (passo_deteccao amp r s).fora_do_array = s.fora_do_array := by
  unfold passo_deteccao
  split
  · split
    · exact fora_ativar r s
    · split
      · obtain ⟨l, h⟩ := padrao_repouso_leds s
        rw [escrever_np_eq, h]
      · rfl
  · rfl

theorem fora_passo_duracao (r : Relogio) (s : State) :
    (passo_duracao r s).fora_do_array = s.fora_do_array := by
  unfold passo_duracao
  split
  · exact fora_desativar r s
  · rfl

theorem fora_main_loop (raw : Nat) (r : Relogio) (s : State) :
    (main_loop raw r s).fora_do_array = s.fora_do_array := by
  unfold main_loop main_loop_deteccao
  rw [fora_passo_duracao, fora_passo_deteccao]
  rfl

theorem fora_main_run (es : List (Nat × Relogio)) :
    ∀ s : State, (main_run es s).fora_do_array = s.fora_do_array := by
  induction es with
  | nil => intro s; rfl
  | cons e es ih =>
    intro s
    simp only [main_run, List.foldl_cons]
    exact (ih _).trans (fora_main_loop e.1 e.2 s)

/-- C15. Index validity of all program writes: a call of `definirLED` marks the
state exactly when its index is 25 or more, and the mark is never removed;
`limpar_np`, the alarm render and the idle render leave an unmarked state
unmarked, so every index they pass is in [0, 25); and so it is for the whole
program, from startup through every run of the loop. -/
theorem C15_pixel_writes_in_range (s : State) (adc : Nat → Nat) (es : List (Nat × Relogio)) :
    (∀ i r g b : Nat, ∀ st : State,
        (definirLED i r g b st).fora_do_array = (st.fora_do_array || decide (25 ≤ i))) ∧
      (limpar_np s).fora_do_array = s.fora_do_array ∧
      (padrao_alarme s).fora_do_array = s.fora_do_array ∧
      (padrao_repouso s).fora_do_array = s.fora_do_array ∧
      (main_run es (main_init adc)).fora_do_array = false := by
  refine ⟨fora_definirLED, fora_limpar_np s, fora_padrao_alarme s, fora_padrao_repouso s, ?_⟩
  rw [fora_main_run, main_init_eq]
  rfl

/-! ## The duplicate write of the alarm pattern -/

/-- C16. Harmless duplicate write: for every prior state, whatever the buffer
held, the alarm render without its second write to index 12 ends in exactly the
state in which the render as written ends. -/
theorem C16_duplicate_write_harmless (s : State) :
    padrao_alarme_sem_duplicata s = padrao_alarme s := by
  unfold padrao_alarme padrao_alarme_sem_duplicata
  rw [foldl_definirLED brilho 0 0 _ _ (by decide), foldl_definirLED brilho 0 0 _ _ (by decide)]
  simp only [List.foldl_cons, List.foldl_nil]
  rw [List.set_comm _ _ _ (by decide : (0 : Nat) ≠ 12),
    List.set_comm _ _ _ (by decide : (4 : Nat) ≠ 12),
    List.set_comm _ _ _ (by decide : (6 : Nat) ≠ 12),
    List.set_comm _ _ _ (by decide : (8 : Nat) ≠ 12), List.set_set]

/-! ## Inside the debounce window -/

/-- C14. No change inside the debounce window: an iteration entered in state
Idle with the gate shut (`time_us_32() - ultimo_tempo_deteccao < 500000`) only
stores its sample and advances the cursor. The detection state, both timestamps,
the pixel buffer, both LED outputs and the buzzer level are unchanged and nothing
is sent to the FIFO; the detection step does nothing, whatever the amplitude. -/
theorem C14_no_change_inside_debounce (raw : Nat) (r : Relogio) (s : State)
    (hi : s.detectando = false)
    (hg : sub32 r.debounce s.ultimo_tempo_deteccao < 500000) :
    main_loop raw r s =
        { s with
          valores_adc := s.valores_adc.set s.indice (raw % 65536)
          indice := (s.indice + 1) % 10 % 256 } ∧
      (∀ amp : Int, passo_deteccao amp r s = s) ∧
      (main_loop raw r s).detectando = s.detectando ∧
      (main_loop raw r s).tempo_inicio_deteccao = s.tempo_inicio_deteccao ∧
      (main_loop raw r s).ultimo_tempo_deteccao = s.ultimo_tempo_deteccao ∧
      (main_loop raw r s).leds = s.leds ∧
      (main_loop raw r s).saida_led = s.saida_led ∧
      (main_loop raw r s).saida_led_rgb = s.saida_led_rgb ∧
      (main_loop raw r s).nivel_buzzer = s.nivel_buzzer ∧
      (main_loop raw r s).fifo = s.fifo := by
  have h : main_loop raw r s = amostrar raw s := main_loop_fechado raw r s hi hg
  refine ⟨h, fun amp => passo_deteccao_fechado amp r s hg, ?_, ?_, ?_, ?_, ?_, ?_, ?_, ?_⟩ <;>
    rw [h] <;> rfl

set_option maxRecDepth 8000 in
/-- Witness of C14: a loud sample 100000 us after the deactivation at 2100000 us. -/
theorem C14_no_change_inside_debounce_witness :
    (main_loop 0 (Relogio.instante 2200000)
        (main_loop 2048 (Relogio.instante 2100000)
          (main_loop 2048 (Relogio.instante 600000) (main_init (fun _ => 2048))))).fifo =
      (main_loop 2048 (Relogio.instante 2100000)
        (main_loop 2048 (Relogio.instante 600000) (main_init (fun _ => 2048)))).fifo :=
  (C14_no_change_inside_debounce 0 (Relogio.instante 2200000)
    (main_loop 2048 (Relogio.instante 2100000)
      (main_loop 2048 (Relogio.instante 600000) (main_init (fun _ => 2048))))
    (by decide) (by decide)).2.2.2.2.2.2.2.2.2

/-! ## The cursor of the ring -/

theorem amostrarTodos_cursor (xs : List Nat) :
    (amostrarTodos xs).valores_adc.length = TAMANHO_AMOSTRA ∧
      (amostrarTodos xs).indice = xs.length % TAMANHO_AMOSTRA := by
  induction xs using List.reverseRecOn with
  | nil => exact ⟨rfl, rfl⟩
  | append_singleton xs x ih =>
    obtain ⟨h1, h2⟩ := ih
    have hstep : amostrarTodos (xs ++ [x]) = amostrar x (amostrarTodos xs) := by
      simp [amostrarTodos, List.foldl_append]
    rw [hstep]
    constructor
    · simp [amostrar, h1]
    · simp only [amostrar, h2, List.length_append, List.length_singleton, TAMANHO_AMOSTRA]
      omega

/-- C17. Ring cursor invariant: the cursor is 0 at startup; after every run of
the loop it is the number of samples pushed modulo 10, hence below 10, and the
ring still has its 10 slots; the next iteration stores its sample in the slot at
the cursor and leaves every other slot as it was. -/
theorem C17_ring_cursor (adc : Nat → Nat) (es : List (Nat × Relogio)) (raw : Nat)
    (r : Relogio) :
    (main_init adc).indice = 0 ∧
      (main_run es (main_init adc)).indice = es.length % 10 ∧
      (main_run es (main_init adc)).indice < 10 ∧
      (main_run es (main_init adc)).valores_adc.length = 10 ∧
      (main_loop raw r (main_run es (main_init adc))).valores_adc =
        (main_run es (main_init adc)).valores_adc.set
          (main_run es (main_init adc)).indice (raw % 65536) ∧
      (main_loop raw r (main_run es (main_init adc))).valores_adc.getD
        (main_run es (main_init adc)).indice 0 = raw % 65536 ∧
      (∀ j, j ≠ (main_run es (main_init adc)).indice →
        (main_loop raw r (main_run es (main_init adc))).valores_adc.getD j 0 =
          (main_run es (main_init adc)).valores_adc.getD j 0) := by
  have h0 : (main_init adc).indice = 0 := by rw [main_init_eq]; rfl
  have hrun := anel_main_run es (main_init adc) estado_reset
    (by rw [main_init_eq]) (by rw [main_init_eq])
  have hc := amostrarTodos_cursor (es.map Prod.fst)
  unfold amostrarTodos at hc
  rw [← hrun.1, ← hrun.2, List.length_map] at hc
  have hlt : (main_run es (main_init adc)).indice < 10 := by
    rw [hc.2]; exact Nat.mod_lt _ (by decide)
  have hloop := anel_main_loop raw r (main_run es (main_init adc))
  simp only [anel, Prod.mk.injEq] at hloop
  have hv : (main_loop raw r (main_run es (main_init adc))).valores_adc =
      (main_run es (main_init adc)).valores_adc.set
        (main_run es (main_init adc)).indice (raw % 65536) := hloop.1
  refine ⟨h0, hc.2, hlt, hc.1, hv, ?_, ?_⟩
  · rw [hv, List.getD_eq_getElem?_getD, List.getElem?_set_self (by rw [hc.1]; exact hlt)]
    rfl
  · intro j hj
    rw [hv, List.getD_eq_getElem?_getD, List.getD_eq_getElem?_getD,
      List.getElem?_set_ne (Ne.symm hj)]

/-! ## The threshold on the raw difference -/

/-- C18. Effective trigger threshold: for a smoothed value `s` and an offset `o`,
both in 0..4095, the amplitude exceeds 50 if and only if `|s - o| >= 40`; so an
iteration entered Idle with the gate open, whose smoothed value is `s` and whose
offset is `o`, ends its detection step Active exactly when `|s - o| >= 40`. -/
theorem C18_effective_threshold (s o : Nat) (hs : s ≤ 4095) (ho : o ≤ 4095) :
    (amplitudeDe s o > 50 ↔ 40 ≤ Int.natAbs ((s : Int) - (o : Int))) ∧
      (∀ (raw : Nat) (r : Relogio) (st : State),
        st.detectando = false →
        sub32 r.debounce st.ultimo_tempo_deteccao ≥ 500000 →
        st.OFFSET_MIC = o →
        valor_adc_medio (amostrar raw st) = s →
        ((main_loop_deteccao raw r st).detectando = true ↔
          40 ≤ Int.natAbs ((s : Int) - (o : Int)))) := by
  obtain ⟨h1, h2⟩ := amplitudeDe_eq s o hs ho
  have hiff : amplitudeDe s o > 50 ↔ 40 ≤ Int.natAbs ((s : Int) - (o : Int)) := by
    rw [h1]; omega
  refine ⟨hiff, ?_⟩
  intro raw r st hi hg ho2 hm
  have ho3 : (amostrar raw st).OFFSET_MIC = o := ho2
  have hamp : amplitude (amostrar raw st) = amplitudeDe s o := by
    unfold amplitude
    rw [hm, ho3]
  have := detectando_passo_deteccao (amplitude (amostrar raw st)) r (amostrar raw st) hi
  unfold main_loop_deteccao
  simp only []
  rw [this, hamp]
  constructor
  · intro h; exact hiff.mp h.2
  · intro h; exact ⟨hg, hiff.mpr h⟩

/-- Witness of C18: a difference of 39 does not trigger, a difference of 40 does. -/
theorem C18_effective_threshold_witness :
    ¬ amplitudeDe 2087 2048 > 50 ∧ amplitudeDe 2088 2048 > 50 :=
  ⟨fun h => absurd ((C18_effective_threshold 2087 2048 (by decide) (by decide)).1.mp h)
      (by decide),
    (C18_effective_threshold 2088 2048 (by decide) (by decide)).1.mpr (by decide)⟩

/-! ## Coherence of the outputs -/

theorem coerente_ativar (r : Relogio) (s : State) : saidasCoerentes (ativar r s) := by
  obtain ⟨l, f, h⟩ := ativar_shape r s
  rw [h]
  exact ⟨rfl, rfl, rfl⟩

theorem coerente_desativar (r : Relogio) (s : State) : saidasCoerentes (desativar r s) := by
  obtain ⟨l, f, h⟩ := desativar_shape r s
  rw [h]
  exact ⟨rfl, rfl, rfl⟩

theorem coerente_passo_deteccao (amp : Int) (r : Relogio) (s : State)
    (h : saidasCoerentes s) : saidasCoerentes (passo_deteccao amp r s) := by
  unfold passo_deteccao
  split
  · split
    · exact coerente_ativar r s
    · split
      · obtain ⟨l, f, hp⟩ := padrao_repouso_shape s
        rw [escrever_np_eq, hp]
        exact h
      · exact h
  · exact h

theorem coerente_passo_duracao (r : Relogio) (s : State)
    (h : saidasCoerentes s) : saidasCoerentes (passo_duracao r s) := by
  unfold passo_duracao
  split
  · exact coerente_desativar r s
  · exact h

theorem coerente_main_loop (raw : Nat) (r : Relogio) (s : State)
    (h : saidasCoerentes s) : saidasCoerentes (main_loop raw r s) := by
  unfold main_loop main_loop_deteccao
  exact coerente_passo_duracao r _ (coerente_passo_deteccao _ r (amostrar raw s) h)

theorem coerente_main_run (es : List (Nat × Relogio)) :
    ∀ s : State, saidasCoerentes s → saidasCoerentes (main_run es s) := by
  induction es with
  | nil => intro s h; exact h
  | cons e es ih =>
    intro s h
    simp only [main_run, List.foldl_cons]
    exact ih _ (coerente_main_loop e.1 e.2 s h)

/-- C20. Output coherence invariant: `main` enters its loop in state Idle with
the indicator LED output 0, the RGB status LED output 1 and the buzzer level 0;
after every iteration of every run from there, the indicator LED output is 1
exactly when the state is Active, the RGB status LED output is 1 exactly when the
state is Idle, and the buzzer level is 2048 when Active and 0 when Idle. -/
theorem C20_output_coherence (adc : Nat → Nat) (es : List (Nat × Relogio)) :
    ((main_init adc).detectando = false ∧ (main_init adc).saida_led = false ∧
        (main_init adc).saida_led_rgb = true ∧ (main_init adc).nivel_buzzer = 0) ∧
      ((main_run es (main_init adc)).saida_led = true ↔
        (main_run es (main_init adc)).detectando = true) ∧
      ((main_run es (main_init adc)).saida_led_rgb = true ↔
        (main_run es (main_init adc)).detectando = false) ∧
      ((main_run es (main_init adc)).detectando = true →
        (main_run es (main_init adc)).nivel_buzzer = 2048) ∧
      ((main_run es (main_init adc)).detectando = false →
        (main_run es (main_init adc)).nivel_buzzer = 0) := by
  have h0 : saidasCoerentes (main_init adc) := by
    rw [main_init_eq]; exact ⟨rfl, rfl, rfl⟩
  obtain ⟨h1, h2, h3⟩ := coerente_main_run es (main_init adc) h0
  refine ⟨by rw [main_init_eq]; exact ⟨rfl, rfl, rfl, rfl⟩, ?_, ?_, ?_, ?_⟩
  · rw [h1]
  · rw [h2]; cases (main_run es (main_init adc)).detectando <;> simp
  · intro hd; rw [h3, if_pos hd]
  · intro hd; rw [h3, if_neg (by rw [hd]; decide)]

/-! ## Spacing of the alarms -/

theorem sub32_of_le (a b : Nat) (h : b ≤ a) (ha : a < 2 ^ 32) : sub32 a b = a - b := by
  unfold sub32; omega

theorem tempos_ativar (r : Relogio) (s : State) :
    (ativar r s).detectando = true ∧
      (ativar r s).tempo_inicio_deteccao = r.inicio % 2 ^ 32 ∧
      (ativar r s).ultimo_tempo_deteccao = s.ultimo_tempo_deteccao := by
  obtain ⟨l, f, h⟩ := ativar_shape r s
  rw [h]
  exact ⟨rfl, rfl, rfl⟩

theorem tempos_desativar (r : Relogio) (s : State) :
    (desativar r s).detectando = false ∧
      (desativar r s).tempo_inicio_deteccao = s.tempo_inicio_deteccao ∧
      (desativar r s).ultimo_tempo_deteccao = r.fim % 2 ^ 32 := by
  obtain ⟨l, f, h⟩ := desativar_shape r s
  rw [h]
  exact ⟨rfl, rfl, rfl⟩

theorem ultimo_passo_deteccao (amp : Int) (r : Relogio) (s : State) :
    (passo_deteccao amp r s).ultimo_tempo_deteccao = s.ultimo_tempo_deteccao := by
  cases hd : s.detectando with
  | true => rw [passo_deteccao_ativo amp r s hd]
  | false =>
    by_cases hg : sub32 r.debounce s.ultimo_tempo_deteccao ≥ TEMPO_DEBOUNCE * 1000
    · by_cases ha : amp > LIMIAR_RUIDO
      · rw [passo_deteccao_dispara amp r s hd hg ha]
        exact (tempos_ativar r s).2.2
      · rw [passo_deteccao_repouso amp r s hd hg ha]
        exact (tempos_repouso s).2.1
    · rw [passo_deteccao_fechado amp r s (Nat.lt_of_not_le hg)]

/-- The five courses an iteration can take, with the detection state and the two
timestamps each of them leaves. -/
theorem main_loop_casos (raw : Nat) (r : Relogio) (s : State) :
    (s.detectando = true ∧ sub32 r.duracao s.tempo_inicio_deteccao < 1500000 ∧
        (main_loop raw r s).detectando = true ∧
        (main_loop raw r s).tempo_inicio_deteccao = s.tempo_inicio_deteccao) ∨
      (s.detectando = true ∧ sub32 r.duracao s.tempo_inicio_deteccao ≥ 1500000 ∧
        (main_loop raw r s).detectando = false ∧
        (main_loop raw r s).ultimo_tempo_deteccao = r.fim % 2 ^ 32) ∨
      (s.detectando = false ∧ (main_loop_deteccao raw r s).detectando = false ∧
        (main_loop raw r s).detectando = false ∧
        (main_loop raw r s).ultimo_tempo_deteccao = s.ultimo_tempo_deteccao) ∨
      (s.detectando = false ∧ sub32 r.debounce s.ultimo_tempo_deteccao ≥ 500000 ∧
        (main_loop_deteccao raw r s).detectando = true ∧
        (main_loop_deteccao raw r s).tempo_inicio_deteccao = r.inicio % 2 ^ 32 ∧
        sub32 r.duracao r.inicio < 1500000 ∧
        (main_loop raw r s).detectando = true ∧
        (main_loop raw r s).tempo_inicio_deteccao = r.inicio % 2 ^ 32) ∨
      (s.detectando = false ∧ sub32 r.debounce s.ultimo_tempo_deteccao ≥ 500000 ∧
        (main_loop_deteccao raw r s).detectando = true ∧
        (main_loop_deteccao raw r s).tempo_inicio_deteccao = r.inicio % 2 ^ 32 ∧
        sub32 r.duracao r.inicio ≥ 1500000 ∧
        (main_loop raw r s).detectando = false ∧
        (main_loop raw r s).ultimo_tempo_deteccao = r.fim % 2 ^ 32) := by
  cases hd : s.detectando with
  | true =>
    have hl := main_loop_ativo raw r s hd
    by_cases hh : sub32 r.duracao s.tempo_inicio_deteccao < 1500000
    · left
      rw [hl, passo_duracao_mantem r (amostrar raw s) hh]
      exact ⟨rfl, hh, hd, rfl⟩
    · right; left
      have hh2 : sub32 r.duracao s.tempo_inicio_deteccao ≥ 1500000 := Nat.le_of_not_lt hh
      rw [hl, passo_duracao_expira r (amostrar raw s) hd hh2]
      obtain ⟨h1, _, h3⟩ := tempos_desativar r (amostrar raw s)
      exact ⟨rfl, hh2, h1, h3⟩
  | false =>
    right; right
    have hd1 : (amostrar raw s).detectando = false := hd
    cases hm : (main_loop_deteccao raw r s).detectando with
    | false =>
      left
      have hl : main_loop raw r s = main_loop_deteccao raw r s :=
        passo_duracao_repouso r _ hm
      refine ⟨rfl, rfl, by rw [hl]; exact hm, ?_⟩
      rw [hl]
      exact ultimo_passo_deteccao _ r (amostrar raw s)
    | true =>
      right
      have hga := (detectando_passo_deteccao _ r (amostrar raw s) hd1).mp hm
      have hg : sub32 r.debounce s.ultimo_tempo_deteccao ≥ 500000 := hga.1
      have he : main_loop_deteccao raw r s = ativar r (amostrar raw s) :=
        passo_deteccao_dispara _ r (amostrar raw s) hd1 hga.1 hga.2
      obtain ⟨a1, a2, a3⟩ := tempos_ativar r (amostrar raw s)
      have hti : (main_loop_deteccao raw r s).tempo_inicio_deteccao = r.inicio % 2 ^ 32 := by
        rw [he]; exact a2
      by_cases hh : sub32 r.duracao r.inicio < 1500000
      · left
        have hl := main_loop_dispara raw r s hd hg hga.2 hh
        exact ⟨rfl, hg, rfl, hti, hh, by rw [hl]; exact hm, by rw [hl]; exact hti⟩
      · right
        have hh2 : sub32 r.duracao r.inicio ≥ 1500000 := Nat.le_of_not_lt hh
        have hexp : sub32 r.duracao (main_loop_deteccao raw r s).tempo_inicio_deteccao
            ≥ DURACAO_DETECCAO * 1000 := by
          rw [hti, sub32_mod_right]; exact hh2
        have hl : main_loop raw r s = desativar r (main_loop_deteccao raw r s) :=
          passo_duracao_expira r _ hm hexp
        obtain ⟨d1, _, d3⟩ := tempos_desativar r (main_loop_deteccao raw r s)
        exact ⟨rfl, hg, rfl, hti, hh2, by rw [hl]; exact d1, by rw [hl]; exact d3⟩

theorem aposAtivacao_passo (raw : Nat) (r : Relogio) (s : State) (a t : Nat)
    (hinv : aposAtivacao s a t) (ht : t ≤ r.debounce) (ho : relogioOrdenado r) :
    (s.detectando = false ∧ (main_loop_deteccao raw r s).detectando = true →
        a + 2000000 ≤ (main_loop_deteccao raw r s).tempo_inicio_deteccao ∧
          aposAtivacao (main_loop raw r s)
            (main_loop_deteccao raw r s).tempo_inicio_deteccao r.fim) ∧
      (¬ (s.detectando = false ∧ (main_loop_deteccao raw r s).detectando = true) →
        aposAtivacao (main_loop raw r s) a r.fim) := by
  obtain ⟨o1, o2, o3, o4⟩ := ho
  have hi32 : r.inicio % 2 ^ 32 = r.inicio := Nat.mod_eq_of_lt (by omega)
  have hf32 : r.fim % 2 ^ 32 = r.fim := Nat.mod_eq_of_lt o4
  rcases main_loop_casos raw r s with
    ⟨hd, hh, e1, e2⟩ | ⟨hd, hh, e1, e2⟩ | ⟨hd, hm, e1, e2⟩ | ⟨hd, hg, hm, hti, hh, e1, e2⟩ |
    ⟨hd, hg, hm, hti, hh, e1, e2⟩
  · obtain ⟨i1, i2⟩ := hinv.1 hd
    refine ⟨fun hact => absurd (hd.symm.trans hact.1) (by decide), fun _ => ⟨fun _ => ?_, ?_⟩⟩
    · rw [e2, i1]; exact ⟨rfl, by omega⟩
    · intro hc; rw [e1] at hc; exact absurd hc (by decide)
  · obtain ⟨i1, i2⟩ := hinv.1 hd
    rw [i1, sub32_of_le r.duracao a (by omega) (by omega)] at hh
    refine ⟨fun hact => absurd (hd.symm.trans hact.1) (by decide), fun _ => ⟨?_, fun _ => ?_⟩⟩
    · intro hc; rw [e1] at hc; exact absurd hc (by decide)
    · rw [e2, hf32]; omega
  · obtain ⟨i1, i2⟩ := hinv.2 hd
    refine ⟨fun hact => absurd (hm.symm.trans hact.2) (by decide), fun _ => ⟨?_, fun _ => ?_⟩⟩
    · intro hc; rw [e1] at hc; exact absurd hc (by decide)
    · rw [e2]; omega
  · obtain ⟨i1, i2⟩ := hinv.2 hd
    rw [sub32_of_le r.debounce _ (by omega) (by omega)] at hg
    refine ⟨fun _ => ⟨by rw [hti, hi32]; omega, fun _ => ?_, ?_⟩,
      fun hn => absurd ⟨hd, hm⟩ hn⟩
    · rw [e2, hti, hi32]; exact ⟨rfl, by omega⟩
    · intro hc; rw [e1] at hc; exact absurd hc (by decide)
  · obtain ⟨i1, i2⟩ := hinv.2 hd
    rw [sub32_of_le r.debounce _ (by omega) (by omega)] at hg
    rw [sub32_of_le r.duracao r.inicio o2 (by omega)] at hh
    refine ⟨fun _ => ⟨by rw [hti, hi32]; omega, ?_, fun _ => ?_⟩,
      fun hn => absurd ⟨hd, hm⟩ hn⟩
    · intro hc; rw [e1] at hc; exact absurd hc (by decide)
    · rw [e2, hti, hi32, hf32]; omega

theorem semAtivacao_passo (raw : Nat) (r : Relogio) (s : State) (t : Nat)
    (hinv : semAtivacao s t) (ht : t ≤ r.debounce) (ho : relogioOrdenado r) :
    (s.detectando = false ∧ (main_loop_deteccao raw r s).detectando = true →
        aposAtivacao (main_loop raw r s)
          (main_loop_deteccao raw r s).tempo_inicio_deteccao r.fim) ∧
      (¬ (s.detectando = false ∧ (main_loop_deteccao raw r s).detectando = true) →
        semAtivacao (main_loop raw r s) r.fim) := by
  obtain ⟨o1, o2, o3, o4⟩ := ho
  obtain ⟨hd0, hu0⟩ := hinv
  have hi32 : r.inicio % 2 ^ 32 = r.inicio := Nat.mod_eq_of_lt (by omega)
  have hf32 : r.fim % 2 ^ 32 = r.fim := Nat.mod_eq_of_lt o4
  rcases main_loop_casos raw r s with
    ⟨hd, hh, e1, e2⟩ | ⟨hd, hh, e1, e2⟩ | ⟨hd, hm, e1, e2⟩ | ⟨hd, hg, hm, hti, hh, e1, e2⟩ |
    ⟨hd, hg, hm, hti, hh, e1, e2⟩
  · exact absurd (hd0.symm.trans hd) (by decide)
  · exact absurd (hd0.symm.trans hd) (by decide)
  · refine ⟨fun hact => absurd (hm.symm.trans hact.2) (by decide), fun _ => ⟨e1, ?_⟩⟩
    rw [e2]; omega
  · refine ⟨fun _ => ⟨fun _ => ?_, ?_⟩, fun hn => absurd ⟨hd, hm⟩ hn⟩
    · rw [e2, hti, hi32]; exact ⟨rfl, by omega⟩
    · intro hc; rw [e1] at hc; exact absurd hc (by decide)
  · rw [sub32_of_le r.duracao r.inicio o2 (by omega)] at hh
    refine ⟨fun _ => ⟨?_, fun _ => ?_⟩, fun hn => absurd ⟨hd, hm⟩ hn⟩
    · intro hc; rw [e1] at hc; exact absurd hc (by decide)
    · rw [e2, hti, hi32, hf32]; omega

theorem chain_aposAtivacao (es : List (Nat × Relogio)) :
    ∀ (s : State) (a t : Nat), aposAtivacao s a t → temposOrdenados t es →
      List.Chain (fun x y => x + 2000000 ≤ y) a (ativacoes es s) := by
  induction es with
  | nil => intro s a t _ _; exact List.Chain.nil
  | cons e es ih =>
    intro s a t hinv hord
    obtain ⟨h1, h2, h3⟩ := hord
    obtain ⟨p1, p2⟩ := aposAtivacao_passo e.1 e.2 s a t hinv h1 h2
    unfold ativacoes
    by_cases hact : s.detectando = false ∧ (main_loop_deteccao e.1 e.2 s).detectando = true
    · rw [if_pos hact]
      exact List.Chain.cons (p1 hact).1 (ih _ _ _ (p1 hact).2 h3)
    · rw [if_neg hact]
      exact ih _ _ _ (p2 hact) h3

theorem chain'_semAtivacao (es : List (Nat × Relogio)) :
    ∀ (s : State) (t : Nat), semAtivacao s t → temposOrdenados t es →
      List.Chain' (fun x y => x + 2000000 ≤ y) (ativacoes es s) := by
  induction es with
  | nil => intro s t _ _; exact List.chain'_nil
  | cons e es ih =>
    intro s t hinv hord
    obtain ⟨h1, h2, h3⟩ := hord
    obtain ⟨p1, p2⟩ := semAtivacao_passo e.1 e.2 s t hinv h1 h2
    unfold ativacoes
    by_cases hact : s.detectando = false ∧ (main_loop_deteccao e.1 e.2 s).detectando = true
    · rw [if_pos hact]
      exact chain_aposAtivacao es _ _ _ (p1 hact) h3
    · rw [if_neg hact]
      exact ih _ _ (p2 hact) h3

/-- C19. Minimum spacing of alarms: in every run of the loop from startup whose
readings of the counter never decrease and never wrap around, each recorded
activation time is at least 2000000 us (hold of 1500000 us plus debounce of
500000 us) after the one before it. -/
theorem C19_alarm_spacing (adc : Nat → Nat) (es : List (Nat × Relogio))
    (hord : temposOrdenados 0 es) :
    List.Chain' (fun x y => x + 2000000 ≤ y) (ativacoes es (main_init adc)) := by
  have h0 : semAtivacao (main_init adc) 0 := by
    rw [main_init_eq]; exact ⟨rfl, Nat.le_refl 0⟩
  exact chain'_semAtivacao es (main_init adc) 0 h0 hord

/-- Witness of C19: loud samples every 100000 us from 600000 us on are detected
at 600000 us and again at 2600000 us only. -/
theorem C19_alarm_spacing_witness :
    ativacoes
        ((List.range 22).map (fun k => (0, Relogio.instante (600000 + 100000 * k))))
        (main_init (fun _ => 2048)) = [600000, 2600000] ∧
      List.Chain' (fun x y => x + 2000000 ≤ y)
        (ativacoes
          ((List.range 22).map (fun k => (0, Relogio.instante (600000 + 100000 * k))))
          (main_init (fun _ => 2048))) :=
  ⟨by decide, C19_alarm_spacing (fun _ => 2048) _ (by
    simp [temposOrdenados, relogioOrdenado, Relogio.instante, List.range, List.range.loop])⟩

end Embarcatech
